import Mathlib

/-!
Verification development for the option-digestion core of gnome-terminal
(file src/terminal-options.c).  The data model (InitialTab, InitialWindow,
TerminalOptions), the option callbacks, the prescanner and the config merger
are embedded as pure Lean functions; results of calls into external
collaborators (the GLib shell splitter, the profile resolver, the float
parser for zoom, the key-file loader) are carried as payloads of the event
type, as the spec treats those collaborators as external interfaces.
-/

namespace TermOpt

/-- Diagnostics printed to stderr by the callbacks (non-fatal). -/
inductive Warning where
  | deprecated (optionName : String)
  | duplicate_option (optionName : String)
deriving DecidableEq, Repr

/-- Fatal errors set into the GError out-parameter by the callbacks, and the
abort caused by the g_assert_nonnull assertions in ensure_top_window and
ensure_top_tab. -/
inductive OptErr where
  | two_roles
  | wait_twice
  | bad_fd (value : String)
  | fd_stdio (fd : Int)
  | fd_duplicate (fd : Int)
  | bad_command
  | missing_command
  | invalid_config_file
  | incompatible_config_file
  | config_windows_list_error
  | shell_error
  | assertion_failed
deriving DecidableEq, Repr

/-- InitialTab from terminal-options.c.  The zoom factor is modelled as a
rational number; fd_list and fd_array are kept in lockstep by the code, so a
single list of pairs (local index, target fd) represents both. -/
structure InitialTab where
  profile : Option String
  exec_argv : Option (List String)
  title : Option String
  working_dir : Option String
  zoom : ℚ
  zoom_set : Bool
  active : Bool
  wait : Bool
  fd_array : List (Nat × Int)
deriving DecidableEq, Repr

/-- initial_tab_new: fresh tab adopting the given profile.  The C function
allocates with g_slice_new, not g_slice_new0, and assigns every field of
the struct except wait, so in the program the wait flag of a fresh tab is
read from uninitialized memory; the model assigns the zero value false,
which is the evident intent of the code (the once-only any_wait guard, and
option_wait_cb being the only assignment to wait, rely on it).  The
wait-uniqueness analysis treats this missing initialization as a defect of
the code, not of the model. -/
def initial_tab_new (profile : Option String) : InitialTab where
  profile := profile
  exec_argv := none
  title := none
  working_dir := none
  zoom := 1
  zoom_set := false
  active := false
  wait := false
  fd_array := []

/-- InitialWindow from terminal-options.c. -/
structure InitialWindow where
  tabs : List InitialTab
  force_menubar_state : Bool
  menubar_state : Bool
  start_fullscreen : Bool
  start_maximized : Bool
  geometry : Option String
  role : Option String
  implicit_first_window : Bool
  source_tag : Nat
deriving DecidableEq, Repr

/-- initial_window_new: g_slice_new0, so every field is zeroed. -/
def initial_window_new (source_tag : Nat) : InitialWindow where
  tabs := []
  force_menubar_state := false
  menubar_state := false
  start_fullscreen := false
  start_maximized := false
  geometry := none
  role := none
  implicit_first_window := false
  source_tag := source_tag

/-- The fields of TerminalOptions that the digester core reads or writes. -/
structure TerminalOptions where
  initial_windows : List InitialWindow
  default_role : Option String
  default_geometry : Option String
  default_window_menubar_forced : Bool
  default_window_menubar_state : Bool
  default_fullscreen : Bool
  default_maximize : Bool
  default_title : Option String
  default_working_dir : Option String
  default_profile : Option String
  zoom : ℚ
  zoom_set : Bool
  any_wait : Bool
  execute : Bool
  exec_argv : Option (List String)
deriving DecidableEq, Repr

/-- The initialisation performed at the top of terminal_options_parse; the
current working directory returned by g_get_current_dir is a parameter. -/
def initial_options (cwd : String) : TerminalOptions where
  initial_windows := []
  default_role := none
  default_geometry := none
  default_window_menubar_forced := false
  default_window_menubar_state := true
  default_fullscreen := false
  default_maximize := false
  default_title := none
  default_working_dir := some cwd
  default_profile := none
  zoom := 1
  zoom_set := false
  any_wait := false
  execute := false
  exec_argv := none

/-- Replace the last element of a list by its image under f, mirroring the
g_list_last based in-place updates of the C code. -/
def updateLast {α : Type} (f : α → α) (l : List α) : List α :=
  match l.getLast? with
  | none => []
  | some a => l.dropLast ++ [f a]

/-- The current window: the most recently appended InitialWindow. -/
def top_window? (o : TerminalOptions) : Option InitialWindow :=
  o.initial_windows.getLast?

/-- The current tab: the last tab of the most recently appended window. -/
def top_tab? (o : TerminalOptions) : Option InitialTab :=
  (top_window? o).bind (fun iw => iw.tabs.getLast?)

/-- Modify the most recently appended window in place. -/
def modify_top_window (o : TerminalOptions) (f : InitialWindow → InitialWindow) :
    TerminalOptions :=
  { o with initial_windows := updateLast f o.initial_windows }

/-- Overwrite the current tab (the last tab of the last window). -/
def set_top_tab (o : TerminalOptions) (it : InitialTab) : TerminalOptions :=
  modify_top_window o (fun iw => { iw with tabs := updateLast (fun _ => it) iw.tabs })

/-- apply_defaults: moves the default role into the window (consuming it),
copies the default geometry when the window has none, consumes the forced
menubar default, and ORs in the fullscreen and maximize defaults. -/
def apply_defaults (o : TerminalOptions) (iw : InitialWindow) :
    TerminalOptions × InitialWindow :=
  let o1 : TerminalOptions :=
    if o.default_role.isSome then { o with default_role := none } else o
  let iw1 : InitialWindow :=
    match o.default_role with
    | some r => { iw with role := some r }
    | none => iw
  let iw2 : InitialWindow :=
    if iw1.geometry = none then { iw1 with geometry := o.default_geometry } else iw1
  let p : TerminalOptions × InitialWindow :=
    if o.default_window_menubar_forced then
      ({ o1 with default_window_menubar_forced := false },
       { iw2 with force_menubar_state := true,
                  menubar_state := o.default_window_menubar_state })
    else (o1, iw2)
  (p.1, { p.2 with start_fullscreen := p.2.start_fullscreen || o.default_fullscreen,
                   start_maximized := p.2.start_maximized || o.default_maximize })

/-- add_new_window: appends a window holding one fresh tab, applying the
process-wide defaults at creation time. -/
def add_new_window (o : TerminalOptions) (profile : Option String)
    (implicit_if_first_window : Bool) : TerminalOptions :=
  let iw : InitialWindow :=
    { initial_window_new 0 with
        implicit_first_window := o.initial_windows.isEmpty && implicit_if_first_window,
        tabs := [initial_tab_new profile] }
  let p := apply_defaults o iw
  { p.1 with initial_windows := p.1.initial_windows ++ [p.2] }

/-- ensure_top_window: create the first window lazily if none exists. -/
def ensure_top_window (o : TerminalOptions) (implicit_if_first_window : Bool) :
    TerminalOptions :=
  if o.initial_windows.isEmpty then add_new_window o none implicit_if_first_window
  else o

/-- ensure_top_tab: ensure a window exists and hand back its last tab.  When
the top window has an empty tab list the C code aborts on
g_assert_nonnull (iw -> tabs); that abort is modelled as assertion_failed. -/
def ensure_top_tab (o : TerminalOptions) :
    Except OptErr (TerminalOptions × InitialTab) :=
  let o1 := ensure_top_window o true
  match top_tab? o1 with
  | some it => .ok (o1, it)
  | none => .error .assertion_failed

/-- option_window_callback; the profile argument is the result already
returned by the external profile resolver (with its fallback). -/
def option_window_callback (o : TerminalOptions) (profile : Option String) :
    Except OptErr (TerminalOptions × List Warning) :=
  .ok (add_new_window o profile false, [])

/-- option_tab_callback: appends a tab to the current window, or implicitly
creates the first window. -/
def option_tab_callback (o : TerminalOptions) (profile : Option String) :
    Except OptErr (TerminalOptions × List Warning) :=
  match o.initial_windows.getLast? with
  | some _ =>
      .ok (modify_top_window o
             (fun iw => { iw with tabs := iw.tabs ++ [initial_tab_new profile] }), [])
  | none => .ok (add_new_window o profile true, [])

/-- option_role_callback: with a window, the role is written unconditionally;
without one, a second default role is the two-roles fatal error. -/
def option_role_callback (o : TerminalOptions) (value : String) :
    Except OptErr (TerminalOptions × List Warning) :=
  match o.initial_windows.getLast? with
  | some _ => .ok (modify_top_window o (fun iw => { iw with role := some value }), [])
  | none =>
      match o.default_role with
      | none => .ok ({ o with default_role := some value }, [])
      | some _ => .error .two_roles

/-- option_geometry_callback. -/
def option_geometry_callback (o : TerminalOptions) (value : String) :
    Except OptErr (TerminalOptions × List Warning) :=
  match o.initial_windows.getLast? with
  | some _ => .ok (modify_top_window o (fun iw => { iw with geometry := some value }), [])
  | none => .ok ({ o with default_geometry := some value }, [])

/-- option_show_menubar_callback: warns and ignores only when the window
already forces the menubar visible; otherwise it assigns the forced state. -/
def option_show_menubar_callback (o : TerminalOptions) :
    Except OptErr (TerminalOptions × List Warning) :=
  match o.initial_windows.getLast? with
  | some iw =>
      if iw.force_menubar_state && iw.menubar_state then
        .ok (o, [.duplicate_option "--show-menubar"])
      else
        .ok (modify_top_window o
               (fun w => { w with force_menubar_state := true, menubar_state := true }), [])
  | none =>
      .ok ({ o with default_window_menubar_forced := true,
                    default_window_menubar_state := true }, [])

/-- option_hide_menubar_callback: warns and ignores only when the window
already forces the menubar hidden; otherwise it assigns the forced state. -/
def option_hide_menubar_callback (o : TerminalOptions) :
    Except OptErr (TerminalOptions × List Warning) :=
  match o.initial_windows.getLast? with
  | some iw =>
      if iw.force_menubar_state && !iw.menubar_state then
        .ok (o, [.duplicate_option "--hide-menubar"])
      else
        .ok (modify_top_window o
               (fun w => { w with force_menubar_state := true, menubar_state := false }), [])
  | none =>
      .ok ({ o with default_window_menubar_forced := true,
                    default_window_menubar_state := false }, [])

/-- option_maximize_callback. -/
def option_maximize_callback (o : TerminalOptions) :
    Except OptErr (TerminalOptions × List Warning) :=
  match o.initial_windows.getLast? with
  | some _ => .ok (modify_top_window o (fun iw => { iw with start_maximized := true }), [])
  | none => .ok ({ o with default_maximize := true }, [])

/-- option_fullscreen_callback. -/
def option_fullscreen_callback (o : TerminalOptions) :
    Except OptErr (TerminalOptions × List Warning) :=
  match o.initial_windows.getLast? with
  | some _ => .ok (modify_top_window o (fun iw => { iw with start_fullscreen := true }), [])
  | none => .ok ({ o with default_fullscreen := true }, [])

/-- option_profile_cb and option_profile_id_cb; the argument is the profile
identifier produced by the external resolver (resolution failure aborts the
parse before this code runs). -/
def option_profile_cb (o : TerminalOptions) (profile : String) :
    Except OptErr (TerminalOptions × List Warning) :=
  match o.initial_windows.getLast? with
  | some _ =>
      match ensure_top_tab o with
      | .ok (o1, it) => .ok (set_top_tab o1 { it with profile := some profile }, [])
      | .error e => .error e
  | none => .ok ({ o with default_profile := some profile }, [])

/-- option_title_callback. -/
def option_title_callback (o : TerminalOptions) (value : String) :
    Except OptErr (TerminalOptions × List Warning) :=
  match o.initial_windows.getLast? with
  | some _ =>
      match ensure_top_tab o with
      | .ok (o1, it) => .ok (set_top_tab o1 { it with title := some value }, [])
      | .error e => .error e
  | none => .ok ({ o with default_title := some value }, [])

/-- option_working_directory_callback. -/
def option_working_directory_callback (o : TerminalOptions) (value : String) :
    Except OptErr (TerminalOptions × List Warning) :=
  match o.initial_windows.getLast? with
  | some _ =>
      match ensure_top_tab o with
      | .ok (o1, it) => .ok (set_top_tab o1 { it with working_dir := some value }, [])
      | .error e => .error e
  | none => .ok ({ o with default_working_dir := some value }, [])

/-- option_command_callback; the parsed argument is the result of the external
g_shell_parse_argv (none when shell parsing failed).  The deprecation notice
is always printed first. -/
def option_command_callback (o : TerminalOptions) (parsed : Option (List String)) :
    Except OptErr (TerminalOptions × List Warning) :=
  match parsed with
  | none => .error .bad_command
  | some exec_argv =>
      match o.initial_windows.getLast? with
      | some _ =>
          match ensure_top_tab o with
          | .ok (o1, it) =>
              .ok (set_top_tab o1 { it with exec_argv := some exec_argv },
                   [.deprecated "--command"])
          | .error e => .error e
      | none => .ok ({ o with exec_argv := some exec_argv }, [.deprecated "--command"])

/-- option_wait_cb: a global once-only flag guards the whole run; the wait
mark lands on the current tab, implicitly creating it if needed. -/
def option_wait_cb (o : TerminalOptions) :
    Except OptErr (TerminalOptions × List Warning) :=
  if o.any_wait then .error .wait_twice
  else
    match ensure_top_tab { o with any_wait := true } with
    | .ok (o1, it) => .ok (set_top_tab o1 { it with wait := true }, [])
    | .error e => .error e

/-- option_zoom_callback; the argument is the zoom factor after the external
float parse and the clamping into the configured scale range, which are the
parts of the callback that involve floating point. -/
def option_zoom_callback (o : TerminalOptions) (zoom : ℚ) :
    Except OptErr (TerminalOptions × List Warning) :=
  match o.initial_windows.getLast? with
  | some _ =>
      match ensure_top_tab o with
      | .ok (o1, it) => .ok (set_top_tab o1 { it with zoom := zoom, zoom_set := true }, [])
      | .error e => .error e
  | none => .ok ({ o with zoom := zoom, zoom_set := true }, [])

/-- option_active_callback: marks the current tab active, implicitly creating
it if needed. -/
def option_active_callback (o : TerminalOptions) :
    Except OptErr (TerminalOptions × List Warning) :=
  match ensure_top_tab o with
  | .ok (o1, it) => .ok (set_top_tab o1 { it with active := true }, [])
  | .error e => .error e

/-- Decimal integer prefix parse in the manner of g_ascii_strtoll with base
10: skip ASCII whitespace, read an optional sign, then a nonempty digit run;
anything after the digits is left unexamined, exactly as the callback leaves
the end pointer unexamined. -/
def parseDecimal (cs : List Char) : Option Int :=
  let cs1 := cs.dropWhile (fun c =>
    c = ' ' || c = '\t' || c = '\n' || c = '\x0b' || c = '\x0c' || c = '\r')
  let sc : Int × List Char :=
    match cs1 with
    | '-' :: r => (-1, r)
    | '+' :: r => (1, r)
    | _ => (1, cs1)
  let ds := sc.2.takeWhile Char.isDigit
  if ds.isEmpty then none
  else some (sc.1 * ((ds.foldl (fun n c => n * 10 + (c.toNat - 48)) 0 : Nat) : Int))

/-- The numeric acceptance test of option_pass_fd_cb: the parse must consume
at least one digit, and the value must not be -1 nor fall outside the int
range (an out-of-int64 overflow is clamped by strtoll and then also fails the
int range test, so the two rejections coincide). -/
def option_fd_parse (value : String) : Option Int :=
  match parseDecimal value.toList with
  | none => none
  | some v =>
      if v = -1 ∨ v < -(2 ^ 31) ∨ v > 2 ^ 31 - 1 then none else some v

/-- option_pass_fd_cb: parse, reject the three standard streams by name,
reject a duplicate within the current tab, then append the pair with the next
sequential index (the value g_unix_fd_list_append returns, since fd_list and
fd_array grow in lockstep; the dup system call is modelled as succeeding). -/
def option_pass_fd_cb (o : TerminalOptions) (value : String) :
    Except OptErr (TerminalOptions × List Warning) :=
  match option_fd_parse value with
  | none => .error (.bad_fd value)
  | some fd =>
      if fd = 0 ∨ fd = 1 ∨ fd = 2 then .error (.fd_stdio fd)
      else
        match ensure_top_tab o with
        | .ok (o1, it) =>
            if fd ∈ it.fd_array.map Prod.snd then .error (.fd_duplicate fd)
            else
              .ok (set_top_tab o1
                     { it with fd_array := it.fd_array ++ [(it.fd_array.length, fd)] }, [])
        | .error e => .error e

/-- digest_options_callback, the post-parse hook: the execute flag with no
buffered command is the missing-command fatal error; with one, the buffer is
moved onto the current tab (implicitly created if none) and cleared; without
the execute flag the hook does nothing. -/
def digest_options_callback (o : TerminalOptions) : Except OptErr TerminalOptions :=
  if o.execute then
    match o.exec_argv with
    | none => .error .missing_command
    | some _ =>
        match ensure_top_tab o with
        | .ok (o1, it) =>
            .ok { set_top_tab o1 { it with exec_argv := o1.exec_argv } with exec_argv := none }
        | .error e => .error e
  else .ok o

/-- One tab group of a persisted configuration document, as the merger reads
it: the group name (compared against the active-tab name of the window), the
scalar keys, and the command key.  The command field is none when the key is
absent, some none when the key is present but the unescape-then-shell-split
decoding fails, and some (some argv) on a successful decode. -/
structure TabGroup where
  name : String
  profile : Option String
  working_dir : Option String
  title : Option String
  command : Option (Option (List String))
deriving DecidableEq, Repr

/-- One window group of a persisted configuration document.  tab_groups is
none when the tabs string-list key is missing (the group is then skipped);
the boolean keys default to false when absent, exactly as
g_key_file_get_boolean with a null error does. -/
structure WindowGroup where
  tab_groups : Option (List TabGroup)
  active_tab : Option String
  role : Option String
  geometry : Option String
  fullscreen : Bool
  maximized : Bool
  menubar_visible : Option Bool
deriving DecidableEq, Repr

/-- The whole key file as the merger reads it; version and compat_version are
the integers g_key_file_get_integer returns (0 when the key is missing), and
window_groups is none when the windows string-list key cannot be read. -/
structure KeyFile where
  has_config_group : Bool
  version : Int
  compat_version : Int
  window_groups : Option (List WindowGroup)
deriving DecidableEq, Repr

/-- Modelled from the spec: the compatibility ceiling constant
TERMINAL_CONFIG_COMPAT_VERSION declared in the missing header
terminal-options.h; the spec only requires it to be positive. -/
def TERMINAL_CONFIG_COMPAT_VERSION : Int := 1

/-- The tab the merger builds from one tab group, before the command key is
read: a fresh tab with the profile adopted, the active mark when the group
name equals the active-tab name of the window, and the unescaped working
directory and title. -/
def merge_build_tab (active_tab : Option String) (tg : TabGroup) : InitialTab :=
  let it0 := initial_tab_new tg.profile
  let it1 := if active_tab = some tg.name then { it0 with active := true } else it0
  { it1 with working_dir := tg.working_dir, title := tg.title }

/-- The inner tab loop of terminal_options_merge_config: each tab group adds
one tab (appended before its keys are read, as in the C code); a failing
command decode stops the loop with the error flag set. -/
def merge_tabs (active_tab : Option String) (iw : InitialWindow) :
    List TabGroup → InitialWindow × Bool
  | [] => (iw, false)
  | tg :: rest =>
      let it2 := merge_build_tab active_tab tg
      match tg.command with
      | none => merge_tabs active_tab { iw with tabs := iw.tabs ++ [it2] } rest
      | some none => ({ iw with tabs := iw.tabs ++ [it2] }, true)
      | some (some argv) =>
          merge_tabs active_tab
            { iw with tabs := iw.tabs ++ [{ it2 with exec_argv := some argv }] } rest

/-- The window loop of terminal_options_merge_config: groups without a tab
list are skipped; for the others a window is created, the defaults applied,
the per-window document keys overlaid (unconditionally for role, geometry,
fullscreen and maximized, and only when present for the menubar key), and the
tabs built.  Returns the mutated options, the windows built so far in
document order, and the error flag. -/
def merge_windows (o : TerminalOptions) (source_tag : Nat) :
    List WindowGroup → TerminalOptions × List InitialWindow × Bool
  | [] => (o, [], false)
  | wg :: rest =>
      match wg.tab_groups with
      | none => merge_windows o source_tag rest
      | some tgs =>
          let p := apply_defaults o (initial_window_new source_tag)
          let iw1 :=
            { p.2 with role := wg.role, geometry := wg.geometry,
                       start_fullscreen := wg.fullscreen,
                       start_maximized := wg.maximized }
          let iw2 :=
            match wg.menubar_visible with
            | some b => { iw1 with force_menubar_state := true, menubar_state := b }
            | none => iw1
          let q := merge_tabs wg.active_tab iw2 tgs
          if q.2 then (p.1, [q.1], true)
          else
            let r := merge_windows p.1 source_tag rest
            (r.1, q.1 :: r.2.1, r.2.2)

/-- terminal_options_merge_config.  The C function returns a gboolean and
mutates the options in place; here the mutated options are returned together
with an optional error.  On any error the pre-existing window list is left
untouched and the locally built windows are freed. -/
def terminal_options_merge_config (o : TerminalOptions) (kf : KeyFile)
    (source_tag : Nat) : TerminalOptions × Option OptErr :=
  if !kf.has_config_group then (o, some .invalid_config_file)
  else if kf.version ≤ 0 ∨ kf.compat_version ≤ 0 ∨
          kf.compat_version > TERMINAL_CONFIG_COMPAT_VERSION then
    (o, some .incompatible_config_file)
  else
    match kf.window_groups with
    | none => (o, some .config_windows_list_error)
    | some groups =>
        let r := merge_windows o source_tag groups
        if r.2.2 then (r.1, some .shell_error)
        else ({ r.1 with initial_windows := r.1.initial_windows ++ r.2.1 }, none)

/-- The token test of the prescanner loop in terminal_options_parse. -/
def prescan_stop (t : String) : Bool :=
  t = "-x" || t = "--execute" || t = "--"

/-- The prescanner loop of terminal_options_parse over the argument vector
(argv without the leading program name): the first legacy execute flag or
bare separator wins; the tokens after it become the buffered command
verbatim and are truncated away together with the flag, and execute records
whether the match was the legacy flag.  When the matched flag is the final
token the loop breaks before the truncation is applied, so nothing is
captured and the flag itself stays in the list handed to the parser. -/
def prescan : List String → List String × Option (List String) × Bool
  | [] => ([], none, false)
  | a :: rest =>
      if a = "-x" ∨ a = "--execute" then
        ((if rest.isEmpty then [a] else []),
         (if rest.isEmpty then none else some rest), true)
      else if a = "--" then
        ((if rest.isEmpty then [a] else []),
         (if rest.isEmpty then none else some rest), false)
      else
        let r := prescan rest
        (a :: r.1, r.2)

/-- One option event, in the order the GOption framework delivers them.
Payloads stand for the results of the external collaborators: the resolved
profile identifier, the shell-split command, the parsed and clamped zoom
factor, and the loaded key file. -/
inductive Event where
  | window (profile : Option String)
  | tab (profile : Option String)
  | role (value : String)
  | geometry (value : String)
  | show_menubar
  | hide_menubar
  | maximize
  | fullscreen
  | profile (profile : String)
  | title (value : String)
  | working_directory (value : String)
  | command (parsed : Option (List String))
  | wait
  | fd (value : String)
  | zoom (value : ℚ)
  | active
  | load_config (kf : KeyFile) (source_tag : Nat)

/-- Dispatch of one option event to its callback. -/
def digester_step (o : TerminalOptions) :
    Event → Except OptErr (TerminalOptions × List Warning)
  | .window p => option_window_callback o p
  | .tab p => option_tab_callback o p
  | .role v => option_role_callback o v
  | .geometry v => option_geometry_callback o v
  | .show_menubar => option_show_menubar_callback o
  | .hide_menubar => option_hide_menubar_callback o
  | .maximize => option_maximize_callback o
  | .fullscreen => option_fullscreen_callback o
  | .profile p => option_profile_cb o p
  | .title v => option_title_callback o v
  | .working_directory v => option_working_directory_callback o v
  | .command c => option_command_callback o c
  | .wait => option_wait_cb o
  | .fd v => option_pass_fd_cb o v
  | .zoom z => option_zoom_callback o z
  | .active => option_active_callback o
  | .load_config kf tag =>
      match (terminal_options_merge_config o kf tag).2 with
      | some e => .error e
      | none => .ok ((terminal_options_merge_config o kf tag).1, [])

/-- Left-to-right consumption of the event stream, collecting warnings; the
first fatal error aborts the rest. -/
def digester_run (o : TerminalOptions) :
    List Event → Except OptErr (TerminalOptions × List Warning)
  | [] => .ok (o, [])
  | e :: es =>
      match digester_step o e with
      | .error err => .error err
      | .ok (o1, w) =>
          match digester_run o1 es with
          | .error err => .error err
          | .ok (o2, ws) => .ok (o2, w ++ ws)

theorem getLast?_some_decomp {α : Type} {l : List α} {a : α}
    (h : l.getLast? = some a) : l = l.dropLast ++ [a] :=
  (List.dropLast_append_getLast? a (Option.mem_def.mpr h)).symm

theorem mem_of_getLast? {α : Type} {l : List α} {a : α}
    (h : l.getLast? = some a) : a ∈ l := by
  rw [getLast?_some_decomp h]
  exact List.mem_append_right _ (List.mem_singleton_self a)

theorem updateLast_eq_of_getLast? {α : Type} (f : α → α) {l : List α} {a : α}
    (h : l.getLast? = some a) : updateLast f l = l.dropLast ++ [f a] := by
  simp [updateLast, h]

theorem updateLast_nil {α : Type} (f : α → α) : updateLast f [] = [] := rfl

theorem getLast?_updateLast {α : Type} (f : α → α) (l : List α) :
    (updateLast f l).getLast? = l.getLast?.map f := by
  cases h : l.getLast? with
  | none => simp [updateLast, h]
  | some a => simp [updateLast, h]

theorem dropLast_updateLast {α : Type} (f : α → α) (l : List α) :
    (updateLast f l).dropLast = l.dropLast := by
  cases h : l.getLast? with
  | none =>
      have : l = [] := by
        cases l with
        | nil => rfl
        | cons x xs =>
            rw [List.getLast?_eq_getLast_of_ne_nil (List.cons_ne_nil x xs)] at h
            exact absurd h (by simp)
      simp [this, updateLast]
  | some a =>
      rw [updateLast_eq_of_getLast? f h, List.dropLast_concat]

theorem length_updateLast {α : Type} (f : α → α) (l : List α) :
    (updateLast f l).length = l.length := by
  cases h : l.getLast? with
  | none =>
      have : l = [] := by
        cases l with
        | nil => rfl
        | cons x xs =>
            rw [List.getLast?_eq_getLast_of_ne_nil (List.cons_ne_nil x xs)] at h
            exact absurd h (by simp)
      simp [this, updateLast]
  | some a =>
      rw [updateLast_eq_of_getLast? f h]
      conv_rhs => rw [getLast?_some_decomp h]
      simp

theorem mem_updateLast {α : Type} {f : α → α} {l : List α} {x : α}
    (hx : x ∈ updateLast f l) :
    x ∈ l.dropLast ∨ ∃ a, l.getLast? = some a ∧ x = f a := by
  cases h : l.getLast? with
  | none => rw [updateLast, h] at hx; exact absurd hx (by simp)
  | some a =>
      rw [updateLast_eq_of_getLast? f h, List.mem_append] at hx
      rcases hx with hx | hx
      · exact Or.inl hx
      · exact Or.inr ⟨a, by simp_all, by simpa using hx⟩

theorem mem_of_mem_dropLast {α : Type} {l : List α} {x : α}
    (hx : x ∈ l.dropLast) : x ∈ l := by
  cases h : l.getLast? with
  | none =>
      cases l with
      | nil => exact absurd hx (by simp)
      | cons y ys =>
          rw [List.getLast?_eq_getLast_of_ne_nil (List.cons_ne_nil y ys)] at h
          exact absurd h (by simp)
  | some a => rw [getLast?_some_decomp h]; exact List.mem_append_left _ hx

theorem apply_defaults_fst_windows (o : TerminalOptions) (iw : InitialWindow) :
    (apply_defaults o iw).1.initial_windows = o.initial_windows := by
  simp only [apply_defaults]
  split_ifs <;> rfl

theorem apply_defaults_fst_any_wait (o : TerminalOptions) (iw : InitialWindow) :
    (apply_defaults o iw).1.any_wait = o.any_wait := by
  simp only [apply_defaults]
  split_ifs <;> rfl

theorem apply_defaults_fst_exec_argv (o : TerminalOptions) (iw : InitialWindow) :
    (apply_defaults o iw).1.exec_argv = o.exec_argv := by
  simp only [apply_defaults]
  split_ifs <;> rfl

theorem apply_defaults_fst_default_geometry (o : TerminalOptions) (iw : InitialWindow) :
    (apply_defaults o iw).1.default_geometry = o.default_geometry := by
  simp only [apply_defaults]
  split_ifs <;> rfl

theorem apply_defaults_snd_tabs (o : TerminalOptions) (iw : InitialWindow) :
    (apply_defaults o iw).2.tabs = iw.tabs := by
  simp only [apply_defaults]
  cases o.default_role <;> split_ifs <;> rfl

theorem add_new_window_windows (o : TerminalOptions) (p : Option String) (b : Bool) :
    (add_new_window o p b).initial_windows =
      o.initial_windows ++
        [(apply_defaults o
            { initial_window_new 0 with
                implicit_first_window := o.initial_windows.isEmpty && b,
                tabs := [initial_tab_new p] }).2] := by
  simp only [add_new_window]
  rw [apply_defaults_fst_windows]

theorem length_add_new_window (o : TerminalOptions) (p : Option String) (b : Bool) :
    (add_new_window o p b).initial_windows.length = o.initial_windows.length + 1 := by
  rw [add_new_window_windows]; simp

theorem top_tab?_add_new_window (o : TerminalOptions) (p : Option String) (b : Bool) :
    top_tab? (add_new_window o p b) = some (initial_tab_new p) := by
  rw [top_tab?, top_window?, add_new_window_windows]
  simp [apply_defaults_snd_tabs]

theorem add_new_window_any_wait (o : TerminalOptions) (p : Option String) (b : Bool) :
    (add_new_window o p b).any_wait = o.any_wait := by
  simp only [add_new_window]
  exact apply_defaults_fst_any_wait o _

theorem add_new_window_exec_argv (o : TerminalOptions) (p : Option String) (b : Bool) :
    (add_new_window o p b).exec_argv = o.exec_argv := by
  simp only [add_new_window]
  exact apply_defaults_fst_exec_argv o _

theorem ensure_top_window_of_ne_nil {o : TerminalOptions}
    (h : o.initial_windows ≠ []) (b : Bool) : ensure_top_window o b = o := by
  simp [ensure_top_window, h]

theorem ensure_top_window_of_nil {o : TerminalOptions}
    (h : o.initial_windows = []) (b : Bool) :
    ensure_top_window o b = add_new_window o none b := by
  simp [ensure_top_window, h]

theorem top_window?_ne_nil {o : TerminalOptions} {iw : InitialWindow}
    (h : top_window? o = some iw) : o.initial_windows ≠ [] := by
  intro h0
  rw [top_window?, h0] at h
  exact absurd h (by simp)

theorem ensure_top_tab_of_top_tab? {o : TerminalOptions} {it : InitialTab}
    (h : top_tab? o = some it) : ensure_top_tab o = .ok (o, it) := by
  have hne : o.initial_windows ≠ [] := by
    rcases Option.bind_eq_some.mp h with ⟨iw, hiw, _⟩
    exact top_window?_ne_nil hiw
  rw [ensure_top_tab]
  simp only [ensure_top_window_of_ne_nil hne, h]

theorem ensure_top_tab_of_nil {o : TerminalOptions}
    (h : o.initial_windows = []) :
    ensure_top_tab o = .ok (add_new_window o none true, initial_tab_new none) := by
  rw [ensure_top_tab]
  simp only [ensure_top_window_of_nil h, top_tab?_add_new_window]

theorem ensure_top_tab_cases {o o1 : TerminalOptions} {it : InitialTab}
    (h : ensure_top_tab o = .ok (o1, it)) :
    (o1 = o ∧ top_tab? o = some it) ∨
    (o.initial_windows = [] ∧ o1 = add_new_window o none true ∧
      it = initial_tab_new none) := by
  by_cases hnil : o.initial_windows = []
  · rw [ensure_top_tab_of_nil hnil] at h
    refine Or.inr ⟨hnil, ?_, ?_⟩
    · exact (congrArg Prod.fst (Except.ok.inj h)).symm
    · exact (congrArg Prod.snd (Except.ok.inj h)).symm
  · rw [ensure_top_tab, ensure_top_window_of_ne_nil hnil] at h
    cases htt : top_tab? o with
    | none => rw [htt] at h; exact absurd h (by simp)
    | some it0 =>
        rw [htt] at h
        have h2 := Prod.mk.inj (Except.ok.inj h)
        exact Or.inl ⟨h2.1.symm, by rw [h2.2]⟩

theorem ensure_top_tab_ok_top {o o1 : TerminalOptions} {it : InitialTab}
    (h : ensure_top_tab o = .ok (o1, it)) : top_tab? o1 = some it := by
  rcases ensure_top_tab_cases h with ⟨rfl, h2⟩ | ⟨_, rfl, rfl⟩
  · exact h2
  · exact top_tab?_add_new_window o none true

theorem top_window?_modify_top_window (o : TerminalOptions)
    (f : InitialWindow → InitialWindow) :
    top_window? (modify_top_window o f) = (top_window? o).map f := by
  simp [modify_top_window, top_window?, getLast?_updateLast]

theorem dropLast_modify_top_window (o : TerminalOptions)
    (f : InitialWindow → InitialWindow) :
    (modify_top_window o f).initial_windows.dropLast = o.initial_windows.dropLast := by
  simp [modify_top_window, dropLast_updateLast]

theorem length_modify_top_window (o : TerminalOptions)
    (f : InitialWindow → InitialWindow) :
    (modify_top_window o f).initial_windows.length = o.initial_windows.length := by
  simp [modify_top_window, length_updateLast]

theorem top_tab?_set_top_tab {o : TerminalOptions} {it : InitialTab}
    (h : top_tab? o = some it) (it2 : InitialTab) :
    top_tab? (set_top_tab o it2) = some it2 := by
  rcases Option.bind_eq_some.mp h with ⟨iw, hiw, htab⟩
  rw [set_top_tab, top_tab?, top_window?_modify_top_window, hiw]
  simp [getLast?_updateLast, htab]

/-- Number of tabs marked wait in a tab list. -/
def tabsWait (l : List InitialTab) : Nat := l.countP (fun it => it.wait)

/-- Number of tabs marked wait across a window list. -/
def waitCountL (l : List InitialWindow) : Nat :=
  (l.map (fun iw => tabsWait iw.tabs)).sum

/-- A predicate holding of every tab of every window of a list. -/
def allTabsL (P : InitialTab → Prop) (l : List InitialWindow) : Prop :=
  ∀ iw ∈ l, ∀ it ∈ iw.tabs, P it

/-- Well-formedness of the fd forward list of one tab: local indices are
sequential, target fds are pairwise distinct and none is a standard stream. -/
def fd_ok (it : InitialTab) : Prop :=
  (it.fd_array.map Prod.snd).Nodup ∧
  (∀ p ∈ it.fd_array, p.2 ≠ 0 ∧ p.2 ≠ 1 ∧ p.2 ≠ 2) ∧
  it.fd_array.map Prod.fst = List.range it.fd_array.length

theorem tabsWait_append (l1 l2 : List InitialTab) :
    tabsWait (l1 ++ l2) = tabsWait l1 + tabsWait l2 := by
  simp [tabsWait, List.countP_append]

theorem tabsWait_eq_zero {l : List InitialTab}
    (h : ∀ it ∈ l, it.wait = false) : tabsWait l = 0 := by
  rw [tabsWait, List.countP_eq_zero]
  intro a ha
  simp [h a ha]

theorem waitCountL_append (l1 l2 : List InitialWindow) :
    waitCountL (l1 ++ l2) = waitCountL l1 + waitCountL l2 := by
  simp [waitCountL]

theorem waitCountL_eq_zero {l : List InitialWindow}
    (h : allTabsL (fun it => it.wait = false) l) : waitCountL l = 0 := by
  rw [waitCountL, List.sum_eq_zero_iff]
  intro x hx
  rcases List.mem_map.mp hx with ⟨iw, hiw, rfl⟩
  exact tabsWait_eq_zero (h iw hiw)

theorem allTabsL_append {P : InitialTab → Prop} {l1 l2 : List InitialWindow}
    (h1 : allTabsL P l1) (h2 : allTabsL P l2) : allTabsL P (l1 ++ l2) := by
  intro iw hiw
  rcases List.mem_append.mp hiw with h | h
  · exact h1 iw h
  · exact h2 iw h

theorem allTabsL_updateLast {P : InitialTab → Prop} {l : List InitialWindow}
    {f : InitialWindow → InitialWindow} (h : allTabsL P l)
    (hf : ∀ iw ∈ l, ∀ it ∈ (f iw).tabs, P it) : allTabsL P (updateLast f l) := by
  intro iw hiw it hit
  rcases mem_updateLast hiw with hd | ⟨a, ha, rfl⟩
  · exact h iw (mem_of_mem_dropLast hd) it hit
  · exact hf a (mem_of_getLast? ha) it hit

theorem eq_nil_of_getLast?_none {α : Type} {l : List α}
    (h : l.getLast? = none) : l = [] := by
  cases l with
  | nil => rfl
  | cons x xs =>
      rw [List.getLast?_eq_getLast_of_ne_nil (List.cons_ne_nil x xs)] at h
      exact absurd h (by simp)

theorem allTabsL_set_top {P : InitialTab → Prop} {l : List InitialWindow}
    {it2 : InitialTab} (h : allTabsL P l) (hP2 : P it2) :
    allTabsL P (updateLast
      (fun iw => { iw with tabs := updateLast (fun _ => it2) iw.tabs }) l) := by
  refine allTabsL_updateLast h ?_
  intro iw hiw it hit
  rcases mem_updateLast hit with hd | ⟨a, _, rfl⟩
  · exact h iw hiw it (mem_of_mem_dropLast hd)
  · exact hP2

theorem allTabsL_append_tab {P : InitialTab → Prop} {l : List InitialWindow}
    {t : InitialTab} (h : allTabsL P l) (ht : P t) :
    allTabsL P (updateLast (fun iw => { iw with tabs := iw.tabs ++ [t] }) l) := by
  refine allTabsL_updateLast h ?_
  intro iw hiw it hit
  rcases List.mem_append.mp hit with hd | hs
  · exact h iw hiw it hd
  · rw [List.mem_singleton.mp hs]; exact ht

theorem waitCountL_updateLast {l : List InitialWindow}
    {f : InitialWindow → InitialWindow}
    (hf : ∀ a, l.getLast? = some a → tabsWait (f a).tabs = tabsWait a.tabs) :
    waitCountL (updateLast f l) = waitCountL l := by
  cases h : l.getLast? with
  | none => rw [updateLast, h, eq_nil_of_getLast?_none h]
  | some a =>
      rw [updateLast_eq_of_getLast? f h]
      conv_rhs => rw [getLast?_some_decomp h]
      rw [waitCountL_append, waitCountL_append]
      simp [waitCountL, hf a h]

theorem waitCountL_set_top_le_one {l : List InitialWindow} (it2 : InitialTab)
    (h : allTabsL (fun it => it.wait = false) l) :
    waitCountL (updateLast
      (fun iw => { iw with tabs := updateLast (fun _ => it2) iw.tabs }) l) ≤ 1 := by
  cases hl : l.getLast? with
  | none => rw [updateLast, hl]; simp [waitCountL]
  | some a =>
      rw [updateLast_eq_of_getLast? _ hl, waitCountL_append]
      have hdrop : waitCountL l.dropLast = 0 := by
        refine waitCountL_eq_zero ?_
        intro iw hiw it hit
        exact h iw (mem_of_mem_dropLast hiw) it hit
      rw [hdrop]
      simp only [waitCountL, List.map_cons, List.map_nil, List.sum_cons, List.sum_nil]
      have htab : tabsWait (updateLast (fun _ => it2) a.tabs) ≤ 1 := by
        cases ht : a.tabs.getLast? with
        | none => rw [updateLast, ht]; simp [tabsWait]
        | some b =>
            rw [updateLast_eq_of_getLast? _ ht, tabsWait_append]
            have h0 : tabsWait a.tabs.dropLast = 0 := by
              refine tabsWait_eq_zero ?_
              intro it hit
              exact h a (mem_of_getLast? hl) it (mem_of_mem_dropLast hit)
            rw [h0]
            simp [tabsWait, List.countP_cons]
            split_ifs <;> simp
      omega

/-- The reachability invariant of the digester state: without the global wait
flag no tab waits, at most one tab waits overall, and every fd forward list
is well formed. -/
def state_inv (o : TerminalOptions) : Prop :=
  (o.any_wait = false → allTabsL (fun it => it.wait = false) o.initial_windows) ∧
  waitCountL o.initial_windows ≤ 1 ∧
  allTabsL fd_ok o.initial_windows

theorem fd_ok_initial_tab_new (p : Option String) : fd_ok (initial_tab_new p) := by
  refine ⟨by simp [initial_tab_new], by simp [initial_tab_new], by simp [initial_tab_new]⟩

theorem tabsWait_updateLast_const {tl : List InitialTab} {it it2 : InitialTab}
    (ht : tl.getLast? = some it) (hw : it2.wait = it.wait) :
    tabsWait (updateLast (fun _ => it2) tl) = tabsWait tl := by
  rw [updateLast_eq_of_getLast? _ ht]
  conv_rhs => rw [getLast?_some_decomp ht]
  rw [tabsWait_append, tabsWait_append]
  simp [tabsWait, List.countP_cons, hw]

theorem state_inv_add_new_window {o : TerminalOptions} (h : state_inv o)
    (p : Option String) (b : Bool) : state_inv (add_new_window o p b) := by
  obtain ⟨h1, h2, h3⟩ := h
  have hw := add_new_window_windows o p b
  have haw := add_new_window_any_wait o p b
  have htabs : (apply_defaults o
      { initial_window_new 0 with
          implicit_first_window := o.initial_windows.isEmpty && b,
          tabs := [initial_tab_new p] }).2.tabs = [initial_tab_new p] :=
    apply_defaults_snd_tabs o _
  refine ⟨?_, ?_, ?_⟩
  · intro ha
    rw [haw] at ha
    rw [hw]
    refine allTabsL_append (h1 ha) ?_
    intro iw hiw it hit
    rw [List.mem_singleton.mp hiw, htabs] at hit
    rw [List.mem_singleton.mp hit]
    rfl
  · rw [hw, waitCountL_append]
    have hz : waitCountL [(apply_defaults o
        { initial_window_new 0 with
            implicit_first_window := o.initial_windows.isEmpty && b,
            tabs := [initial_tab_new p] }).2] = 0 := by
      simp only [waitCountL, List.map_cons, List.map_nil, List.sum_cons,
        List.sum_nil, htabs]
      simp [tabsWait, initial_tab_new]
    omega
  · rw [hw]
    refine allTabsL_append h3 ?_
    intro iw hiw it hit
    rw [List.mem_singleton.mp hiw, htabs] at hit
    rw [List.mem_singleton.mp hit]
    exact fd_ok_initial_tab_new p

theorem allTabsL_top_tab {P : InitialTab → Prop} {o : TerminalOptions}
    {it : InitialTab} (h : allTabsL P o.initial_windows)
    (htt : top_tab? o = some it) : P it := by
  rcases Option.bind_eq_some.mp htt with ⟨iw, hiw, htab⟩
  exact h iw (mem_of_getLast? hiw) it (mem_of_getLast? htab)

theorem state_inv_set_top_tab {o : TerminalOptions} {it it2 : InitialTab}
    (h : state_inv o) (htt : top_tab? o = some it)
    (hwait : it2.wait = it.wait) (hfd : fd_ok it2) :
    state_inv (set_top_tab o it2) := by
  obtain ⟨h1, h2, h3⟩ := h
  rcases Option.bind_eq_some.mp htt with ⟨iw, hiw, htab⟩
  have hmod : ∀ a, o.initial_windows.getLast? = some a →
      tabsWait (updateLast (fun _ => it2) a.tabs) = tabsWait a.tabs := by
    intro a ha
    rw [top_window?] at hiw
    rw [ha] at hiw
    have heq : a = iw := Option.some.inj hiw
    subst heq
    exact tabsWait_updateLast_const htab hwait
  refine ⟨?_, ?_, ?_⟩
  · intro ha
    have := h1 ha
    exact allTabsL_set_top this (by
      rw [hwait]
      exact allTabsL_top_tab this htt)
  · rw [set_top_tab, modify_top_window]
    calc waitCountL (updateLast _ o.initial_windows)
        = waitCountL o.initial_windows := waitCountL_updateLast hmod
      _ ≤ 1 := h2
  · exact allTabsL_set_top h3 hfd

theorem state_inv_modify_keep_tabs {o : TerminalOptions}
    {f : InitialWindow → InitialWindow} (h : state_inv o)
    (hf : ∀ iw, (f iw).tabs = iw.tabs) : state_inv (modify_top_window o f) := by
  obtain ⟨h1, h2, h3⟩ := h
  refine ⟨?_, ?_, ?_⟩
  · intro ha
    refine allTabsL_updateLast (h1 ha) ?_
    intro iw hiw it hit
    rw [hf iw] at hit
    exact h1 ha iw hiw it hit
  · rw [modify_top_window]
    calc waitCountL (updateLast f o.initial_windows)
        = waitCountL o.initial_windows :=
          waitCountL_updateLast (fun a _ => by rw [hf a])
      _ ≤ 1 := h2
  · refine allTabsL_updateLast h3 ?_
    intro iw hiw it hit
    rw [hf iw] at hit
    exact h3 iw hiw it hit

theorem state_inv_append_tab {o : TerminalOptions} {p : Option String}
    (h : state_inv o) :
    state_inv (modify_top_window o
      (fun iw => { iw with tabs := iw.tabs ++ [initial_tab_new p] })) := by
  obtain ⟨h1, h2, h3⟩ := h
  refine ⟨?_, ?_, ?_⟩
  · intro ha
    exact allTabsL_append_tab (h1 ha) rfl
  · rw [modify_top_window]
    calc waitCountL (updateLast _ o.initial_windows)
        = waitCountL o.initial_windows :=
          waitCountL_updateLast (fun a _ => by
            show tabsWait (a.tabs ++ [initial_tab_new p]) = tabsWait a.tabs
            rw [tabsWait_append]
            simp [tabsWait, initial_tab_new])
      _ ≤ 1 := h2
  · exact allTabsL_append_tab h3 (fd_ok_initial_tab_new p)

theorem merge_build_tab_wait (a : Option String) (tg : TabGroup) :
    (merge_build_tab a tg).wait = false := by
  simp only [merge_build_tab]
  split_ifs <;> rfl

theorem merge_build_tab_fd (a : Option String) (tg : TabGroup) :
    (merge_build_tab a tg).fd_array = [] := by
  simp only [merge_build_tab]
  split_ifs <;> rfl

theorem fd_ok_of_fd_nil {it : InitialTab} (h : it.fd_array = []) : fd_ok it := by
  refine ⟨by simp [h], by simp [h], by simp [h]⟩

theorem merge_tabs_flags (a : Option String) :
    ∀ (tgs : List TabGroup) (iw : InitialWindow),
      (∀ it ∈ iw.tabs, it.wait = false ∧ fd_ok it) →
      ∀ it ∈ (merge_tabs a iw tgs).1.tabs, it.wait = false ∧ fd_ok it := by
  intro tgs
  induction tgs with
  | nil => intro iw h it hit; exact h it hit
  | cons tg rest ih =>
      intro iw h it hit
      have hext : ∀ t2 : InitialTab, t2.wait = false → t2.fd_array = [] →
          ∀ it2 ∈ iw.tabs ++ [t2], it2.wait = false ∧ fd_ok it2 := by
        intro t2 hwot hfdt it2 hit2
        rcases List.mem_append.mp hit2 with hm | hm
        · exact h it2 hm
        · rw [List.mem_singleton.mp hm]
          exact ⟨hwot, fd_ok_of_fd_nil hfdt⟩
      rw [merge_tabs] at hit
      cases hc : tg.command with
      | none =>
          rw [hc] at hit
          exact ih _ (hext _ (merge_build_tab_wait a tg) (merge_build_tab_fd a tg)) it hit
      | some c =>
          cases c with
          | none =>
              rw [hc] at hit
              exact hext _ (merge_build_tab_wait a tg) (merge_build_tab_fd a tg) it hit
          | some argv =>
              rw [hc] at hit
              refine ih _ ?_ it hit
              refine hext _ ?_ ?_
              · rw [show ({ merge_build_tab a tg with exec_argv := some argv } :
                    InitialTab).wait = (merge_build_tab a tg).wait from rfl]
                exact merge_build_tab_wait a tg
              · rw [show ({ merge_build_tab a tg with exec_argv := some argv } :
                    InitialTab).fd_array = (merge_build_tab a tg).fd_array from rfl]
                exact merge_build_tab_fd a tg

theorem merge_windows_fst_windows :
    ∀ (gs : List WindowGroup) (o : TerminalOptions) (tag : Nat),
      (merge_windows o tag gs).1.initial_windows = o.initial_windows := by
  intro gs
  induction gs with
  | nil => intro o tag; rfl
  | cons wg rest ih =>
      intro o tag
      rw [merge_windows]
      cases htg : wg.tab_groups with
      | none => exact ih o tag
      | some tgs =>
          simp only
          split_ifs
          · exact apply_defaults_fst_windows o _
          · rw [ih]
            exact apply_defaults_fst_windows o _

theorem merge_windows_fst_any_wait :
    ∀ (gs : List WindowGroup) (o : TerminalOptions) (tag : Nat),
      (merge_windows o tag gs).1.any_wait = o.any_wait := by
  intro gs
  induction gs with
  | nil => intro o tag; rfl
  | cons wg rest ih =>
      intro o tag
      rw [merge_windows]
      cases htg : wg.tab_groups with
      | none => exact ih o tag
      | some tgs =>
          simp only
          split_ifs
          · exact apply_defaults_fst_any_wait o _
          · rw [ih]
            exact apply_defaults_fst_any_wait o _

theorem merge_windows_built_flags :
    ∀ (gs : List WindowGroup) (o : TerminalOptions) (tag : Nat),
      ∀ iw ∈ (merge_windows o tag gs).2.1, ∀ it ∈ iw.tabs,
        it.wait = false ∧ fd_ok it := by
  intro gs
  induction gs with
  | nil => intro o tag iw hiw; exact absurd hiw (by simp [merge_windows])
  | cons wg rest ih =>
      intro o tag iw hiw it hit
      rw [merge_windows] at hiw
      cases htg : wg.tab_groups with
      | none => rw [htg] at hiw; exact ih o tag iw hiw it hit
      | some tgs =>
          rw [htg] at hiw
          simp only at hiw
          have hstart :
              ∀ it2 ∈ ((merge_tabs wg.active_tab
                (match wg.menubar_visible with
                 | some b =>
                     { { (apply_defaults o (initial_window_new tag)).2 with
                           role := wg.role, geometry := wg.geometry,
                           start_fullscreen := wg.fullscreen,
                           start_maximized := wg.maximized } with
                         force_menubar_state := true, menubar_state := b }
                 | none =>
                     { (apply_defaults o (initial_window_new tag)).2 with
                         role := wg.role, geometry := wg.geometry,
                         start_fullscreen := wg.fullscreen,
                         start_maximized := wg.maximized }) tgs).1).tabs,
                it2.wait = false ∧ fd_ok it2 := by
            refine merge_tabs_flags wg.active_tab tgs _ ?_
            intro it2 hit2
            have htabs : (apply_defaults o (initial_window_new tag)).2.tabs = [] :=
              apply_defaults_snd_tabs o _
            cases hm : wg.menubar_visible <;>
              · rw [hm] at hit2
                simp_all [htabs]
          by_cases hq : (merge_tabs wg.active_tab
              (match wg.menubar_visible with
               | some b =>
                   { { (apply_defaults o (initial_window_new tag)).2 with
                         role := wg.role, geometry := wg.geometry,
                         start_fullscreen := wg.fullscreen,
                         start_maximized := wg.maximized } with
                       force_menubar_state := true, menubar_state := b }
               | none =>
                   { (apply_defaults o (initial_window_new tag)).2 with
                       role := wg.role, geometry := wg.geometry,
                       start_fullscreen := wg.fullscreen,
                       start_maximized := wg.maximized }) tgs).2
          · rw [if_pos hq] at hiw
            rw [List.mem_singleton.mp hiw] at hit
            exact hstart it hit
          · rw [if_neg hq] at hiw
            rcases List.mem_cons.mp hiw with hm | hm
            · rw [hm] at hit
              exact hstart it hit
            · exact ih _ tag iw hm it hit

/-- Whether a document contains, inside some window group that has a tab
list, a tab whose command key is present but fails to decode. -/
def has_bad_command (gs : List WindowGroup) : Bool :=
  gs.any (fun wg =>
    (wg.tab_groups.getD []).any (fun tg => decide (tg.command = some none)))

theorem merge_tabs_err (a : Option String) :
    ∀ (tgs : List TabGroup) (iw : InitialWindow),
      (merge_tabs a iw tgs).2 =
        tgs.any (fun tg => decide (tg.command = some none)) := by
  intro tgs
  induction tgs with
  | nil => intro iw; rfl
  | cons tg rest ih =>
      intro iw
      rw [merge_tabs]
      cases hc : tg.command with
      | none => simp [ih, hc]
      | some c =>
          cases c with
          | none => simp [hc]
          | some argv => simp [ih, hc]

theorem merge_windows_err :
    ∀ (gs : List WindowGroup) (o : TerminalOptions) (tag : Nat),
      (merge_windows o tag gs).2.2 = has_bad_command gs := by
  intro gs
  induction gs with
  | nil => intro o tag; rfl
  | cons wg rest ih =>
      intro o tag
      rw [merge_windows]
      cases htg : wg.tab_groups with
      | none =>
          rw [ih o tag]
          simp [has_bad_command, htg]
      | some tgs =>
          simp only
          rw [merge_tabs_err]
          by_cases hq : tgs.any (fun tg => decide (tg.command = some none))
          · rw [if_pos hq]
            simp [has_bad_command, htg, hq]
          · rw [if_neg hq, ih (apply_defaults o (initial_window_new tag)).1 tag]
            simp only [Bool.not_eq_true] at hq
            simp [has_bad_command, htg, hq]

theorem merge_config_ok {o o2 : TerminalOptions} {kf : KeyFile} {tag : Nat}
    (hm : terminal_options_merge_config o kf tag = (o2, none)) :
    ∃ groups, kf.window_groups = some groups ∧
      (merge_windows o tag groups).2.2 = false ∧
      o2 = { (merge_windows o tag groups).1 with
               initial_windows :=
                 (merge_windows o tag groups).1.initial_windows ++
                   (merge_windows o tag groups).2.1 } := by
  rw [terminal_options_merge_config] at hm
  by_cases h1 : !kf.has_config_group
  · rw [if_pos h1] at hm; exact absurd (congrArg Prod.snd hm) (by simp)
  · rw [if_neg h1] at hm
    by_cases h2 : kf.version ≤ 0 ∨ kf.compat_version ≤ 0 ∨
        kf.compat_version > TERMINAL_CONFIG_COMPAT_VERSION
    · rw [if_pos h2] at hm; exact absurd (congrArg Prod.snd hm) (by simp)
    · rw [if_neg h2] at hm
      cases hw : kf.window_groups with
      | none => rw [hw] at hm; exact absurd (congrArg Prod.snd hm) (by simp)
      | some groups =>
          rw [hw] at hm
          simp only at hm
          by_cases hq : (merge_windows o tag groups).2.2
          · rw [if_pos hq] at hm; exact absurd (congrArg Prod.snd hm) (by simp)
          · rw [if_neg hq] at hm
            simp only [Bool.not_eq_true] at hq
            exact ⟨groups, rfl, hq, (congrArg Prod.fst hm).symm⟩

theorem merge_config_err_windows (o : TerminalOptions) (kf : KeyFile) (tag : Nat)
    (hm : (terminal_options_merge_config o kf tag).2 ≠ none) :
    (terminal_options_merge_config o kf tag).1.initial_windows =
      o.initial_windows := by
  rw [terminal_options_merge_config] at hm ⊢
  by_cases h1 : !kf.has_config_group
  · rw [if_pos h1]
  · rw [if_neg h1] at hm ⊢
    by_cases h2 : kf.version ≤ 0 ∨ kf.compat_version ≤ 0 ∨
        kf.compat_version > TERMINAL_CONFIG_COMPAT_VERSION
    · rw [if_pos h2]
    · rw [if_neg h2] at hm ⊢
      cases hw : kf.window_groups with
      | none => rfl
      | some groups =>
          rw [hw] at hm
          simp only at hm ⊢
          by_cases hq : (merge_windows o tag groups).2.2
          · rw [if_pos hq]
            exact merge_windows_fst_windows groups o tag
          · rw [if_neg hq] at hm
            exact absurd rfl hm

theorem merge_config_bad {o : TerminalOptions} {kf : KeyFile} {tag : Nat}
    {groups : List WindowGroup} (hg : kf.window_groups = some groups)
    (hbad : has_bad_command groups = true) :
    (terminal_options_merge_config o kf tag).2 ≠ none := by
  rw [terminal_options_merge_config]
  by_cases h1 : !kf.has_config_group
  · rw [if_pos h1]; simp
  · rw [if_neg h1]
    by_cases h2 : kf.version ≤ 0 ∨ kf.compat_version ≤ 0 ∨
        kf.compat_version > TERMINAL_CONFIG_COMPAT_VERSION
    · rw [if_pos h2]; simp
    · rw [if_neg h2, hg]
      simp only
      rw [if_pos (by rw [merge_windows_err]; exact hbad)]
      simp

theorem state_inv_merge_config {o o2 : TerminalOptions} {kf : KeyFile} {tag : Nat}
    (h : state_inv o) (hm : terminal_options_merge_config o kf tag = (o2, none)) :
    state_inv o2 := by
  obtain ⟨groups, _, _, ho2⟩ := merge_config_ok hm
  obtain ⟨h1, h2, h3⟩ := h
  have hfw := merge_windows_fst_windows groups o tag
  have hfa := merge_windows_fst_any_wait groups o tag
  have hflags := merge_windows_built_flags groups o tag
  have hwaitfalse : allTabsL (fun it => it.wait = false)
      (merge_windows o tag groups).2.1 :=
    fun iw hiw it hit => (hflags iw hiw it hit).1
  have hfd : allTabsL fd_ok (merge_windows o tag groups).2.1 :=
    fun iw hiw it hit => (hflags iw hiw it hit).2
  subst ho2
  refine ⟨?_, ?_, ?_⟩
  · intro ha
    rw [show ({ (merge_windows o tag groups).1 with
          initial_windows := (merge_windows o tag groups).1.initial_windows ++
            (merge_windows o tag groups).2.1 } : TerminalOptions).any_wait =
        (merge_windows o tag groups).1.any_wait from rfl, hfa] at ha
    rw [show ({ (merge_windows o tag groups).1 with
          initial_windows := (merge_windows o tag groups).1.initial_windows ++
            (merge_windows o tag groups).2.1 } : TerminalOptions).initial_windows =
        (merge_windows o tag groups).1.initial_windows ++
          (merge_windows o tag groups).2.1 from rfl, hfw]
    exact allTabsL_append (h1 ha) hwaitfalse
  · rw [show ({ (merge_windows o tag groups).1 with
          initial_windows := (merge_windows o tag groups).1.initial_windows ++
            (merge_windows o tag groups).2.1 } : TerminalOptions).initial_windows =
        (merge_windows o tag groups).1.initial_windows ++
          (merge_windows o tag groups).2.1 from rfl, hfw,
      waitCountL_append, waitCountL_eq_zero hwaitfalse]
    omega
  · rw [show ({ (merge_windows o tag groups).1 with
          initial_windows := (merge_windows o tag groups).1.initial_windows ++
            (merge_windows o tag groups).2.1 } : TerminalOptions).initial_windows =
        (merge_windows o tag groups).1.initial_windows ++
          (merge_windows o tag groups).2.1 from rfl, hfw]
    exact allTabsL_append h3 hfd

theorem allTabsL_add_new_window {P : InitialTab → Prop} {o : TerminalOptions}
    (h : allTabsL P o.initial_windows) {p : Option String} (hP : P (initial_tab_new p))
    (b : Bool) : allTabsL P (add_new_window o p b).initial_windows := by
  rw [add_new_window_windows]
  refine allTabsL_append h ?_
  intro iw hiw it hit
  rw [List.mem_singleton.mp hiw, apply_defaults_snd_tabs] at hit
  rw [List.mem_singleton.mp hit]
  exact hP

theorem fd_ok_append {it : InitialTab} {fd : Int} (h : fd_ok it)
    (hdup : fd ∉ it.fd_array.map Prod.snd)
    (h0 : fd ≠ 0) (h1 : fd ≠ 1) (h2 : fd ≠ 2) :
    fd_ok { it with fd_array := it.fd_array ++ [(it.fd_array.length, fd)] } := by
  obtain ⟨hn, hm, hr⟩ := h
  refine ⟨?_, ?_, ?_⟩
  · show ((it.fd_array ++ [(it.fd_array.length, fd)]).map Prod.snd).Nodup
    rw [List.map_append]
    rw [List.nodup_append]
    refine ⟨hn, by simp, ?_⟩
    intro a ha hb
    simp only [List.map_cons, List.map_nil, List.mem_singleton] at hb
    rw [hb] at ha
    exact hdup ha
  · intro p hp
    rcases List.mem_append.mp hp with hq | hq
    · exact hm p hq
    · rw [List.mem_singleton.mp hq]
      exact ⟨h0, h1, h2⟩
  · show (it.fd_array ++ [(it.fd_array.length, fd)]).map Prod.fst =
      List.range (it.fd_array ++ [(it.fd_array.length, fd)]).length
    rw [List.map_append, List.length_append]
    simp only [List.map_cons, List.map_nil, List.length_cons, List.length_nil]
    rw [hr, List.range_succ]

theorem state_inv_ensure_set {o o2 : TerminalOptions} {it : InitialTab}
    (h : state_inv o) (het : ensure_top_tab o = .ok (o2, it))
    (it2 : InitialTab) (hw : it2.wait = it.wait)
    (hfd : fd_ok it → fd_ok it2) : state_inv (set_top_tab o2 it2) := by
  rcases ensure_top_tab_cases het with ⟨rfl, htt⟩ | ⟨hnil, rfl, rfl⟩
  · exact state_inv_set_top_tab h htt hw (hfd (allTabsL_top_tab h.2.2 htt))
  · exact state_inv_set_top_tab (state_inv_add_new_window h none true)
      (top_tab?_add_new_window o none true) hw (hfd (fd_ok_initial_tab_new none))

theorem state_inv_wait {o o2 : TerminalOptions} {it : InitialTab}
    (h : state_inv o) (haw : o.any_wait = false)
    (het : ensure_top_tab { o with any_wait := true } = .ok (o2, it)) :
    state_inv (set_top_tab o2 { it with wait := true }) := by
  have hallf : allTabsL (fun t => t.wait = false) o.initial_windows := h.1 haw
  have hinv1 : state_inv ({ o with any_wait := true } : TerminalOptions) :=
    ⟨fun ha => absurd ha (by simp), h.2.1, h.2.2⟩
  rcases ensure_top_tab_cases het with ⟨rfl, htt⟩ | ⟨hnil, rfl, rfl⟩
  · refine ⟨fun ha => absurd ha (by simp [set_top_tab, modify_top_window]), ?_, ?_⟩
    · exact waitCountL_set_top_le_one _ hallf
    · have htt0 : top_tab? o = some it := htt
      exact allTabsL_set_top h.2.2 (allTabsL_top_tab h.2.2 htt0 : fd_ok it)
  · have hallf1 : allTabsL (fun t => t.wait = false)
        ({ o with any_wait := true } : TerminalOptions).initial_windows := hallf
    have hfreshw : (initial_tab_new (none : Option String)).wait = false := rfl
    have hallf2 : allTabsL (fun t => t.wait = false)
        (add_new_window ({ o with any_wait := true } : TerminalOptions)
          none true).initial_windows :=
      allTabsL_add_new_window hallf1 hfreshw true
    refine ⟨?_, ?_, ?_⟩
    · intro ha
      rw [show (set_top_tab (add_new_window { o with any_wait := true } none true)
            { initial_tab_new none with wait := true }).any_wait =
          (add_new_window ({ o with any_wait := true } : TerminalOptions)
            none true).any_wait from rfl, add_new_window_any_wait] at ha
      exact absurd ha (by simp)
    · exact waitCountL_set_top_le_one _ hallf2
    · exact allTabsL_set_top (state_inv_add_new_window hinv1 none true).2.2
        (fd_ok_of_fd_nil rfl)

theorem state_inv_of_eq {o r : TerminalOptions} (h : state_inv o)
    (hw : r.initial_windows = o.initial_windows) (ha : r.any_wait = o.any_wait) :
    state_inv r := by
  obtain ⟨h1, h2, h3⟩ := h
  refine ⟨?_, ?_, ?_⟩
  · intro x; rw [ha] at x; rw [hw]; exact h1 x
  · rw [hw]; exact h2
  · rw [hw]; exact h3

theorem state_inv_step {o o1 : TerminalOptions} {w : List Warning} {e : Event}
    (h : state_inv o) (hs : digester_step o e = .ok (o1, w)) : state_inv o1 := by
  cases e with
  | window p =>
      simp only [digester_step, option_window_callback] at hs
      rw [← (Prod.mk.inj (Except.ok.inj hs)).1]
      exact state_inv_add_new_window h p false
  | tab p =>
      simp only [digester_step, option_tab_callback] at hs
      cases hg : o.initial_windows.getLast? with
      | some iw =>
          rw [hg] at hs
          rw [← (Prod.mk.inj (Except.ok.inj hs)).1]
          exact state_inv_append_tab h
      | none =>
          rw [hg] at hs
          rw [← (Prod.mk.inj (Except.ok.inj hs)).1]
          exact state_inv_add_new_window h p true
  | role v =>
      simp only [digester_step, option_role_callback] at hs
      cases hg : o.initial_windows.getLast? with
      | some iw =>
          rw [hg] at hs
          rw [← (Prod.mk.inj (Except.ok.inj hs)).1]
          exact state_inv_modify_keep_tabs h (fun _ => rfl)
      | none =>
          rw [hg] at hs
          cases hd : o.default_role with
          | none =>
              rw [hd] at hs
              rw [← (Prod.mk.inj (Except.ok.inj hs)).1]
              exact state_inv_of_eq h rfl rfl
          | some r => rw [hd] at hs; exact absurd hs (by simp)
  | geometry v =>
      simp only [digester_step, option_geometry_callback] at hs
      cases hg : o.initial_windows.getLast? with
      | some iw =>
          rw [hg] at hs
          rw [← (Prod.mk.inj (Except.ok.inj hs)).1]
          exact state_inv_modify_keep_tabs h (fun _ => rfl)
      | none =>
          rw [hg] at hs
          rw [← (Prod.mk.inj (Except.ok.inj hs)).1]
          exact state_inv_of_eq h rfl rfl
  | show_menubar =>
      simp only [digester_step, option_show_menubar_callback] at hs
      cases hg : o.initial_windows.getLast? with
      | some iw =>
          rw [hg] at hs
          dsimp only at hs
          by_cases hc : iw.force_menubar_state && iw.menubar_state
          · rw [if_pos hc] at hs
            rw [← (Prod.mk.inj (Except.ok.inj hs)).1]
            exact h
          · rw [if_neg hc] at hs
            rw [← (Prod.mk.inj (Except.ok.inj hs)).1]
            exact state_inv_modify_keep_tabs h (fun _ => rfl)
      | none =>
          rw [hg] at hs
          rw [← (Prod.mk.inj (Except.ok.inj hs)).1]
          exact state_inv_of_eq h rfl rfl
  | hide_menubar =>
      simp only [digester_step, option_hide_menubar_callback] at hs
      cases hg : o.initial_windows.getLast? with
      | some iw =>
          rw [hg] at hs
          dsimp only at hs
          by_cases hc : iw.force_menubar_state && !iw.menubar_state
          · rw [if_pos hc] at hs
            rw [← (Prod.mk.inj (Except.ok.inj hs)).1]
            exact h
          · rw [if_neg hc] at hs
            rw [← (Prod.mk.inj (Except.ok.inj hs)).1]
            exact state_inv_modify_keep_tabs h (fun _ => rfl)
      | none =>
          rw [hg] at hs
          rw [← (Prod.mk.inj (Except.ok.inj hs)).1]
          exact state_inv_of_eq h rfl rfl
  | maximize =>
      simp only [digester_step, option_maximize_callback] at hs
      cases hg : o.initial_windows.getLast? with
      | some iw =>
          rw [hg] at hs
          rw [← (Prod.mk.inj (Except.ok.inj hs)).1]
          exact state_inv_modify_keep_tabs h (fun _ => rfl)
      | none =>
          rw [hg] at hs
          rw [← (Prod.mk.inj (Except.ok.inj hs)).1]
          exact state_inv_of_eq h rfl rfl
  | fullscreen =>
      simp only [digester_step, option_fullscreen_callback] at hs
      cases hg : o.initial_windows.getLast? with
      | some iw =>
          rw [hg] at hs
          rw [← (Prod.mk.inj (Except.ok.inj hs)).1]
          exact state_inv_modify_keep_tabs h (fun _ => rfl)
      | none =>
          rw [hg] at hs
          rw [← (Prod.mk.inj (Except.ok.inj hs)).1]
          exact state_inv_of_eq h rfl rfl
  | profile p =>
      simp only [digester_step, option_profile_cb] at hs
      cases hg : o.initial_windows.getLast? with
      | some iw =>
          rw [hg] at hs
          cases het : ensure_top_tab o with
          | error e2 => rw [het] at hs; exact absurd hs (by simp)
          | ok pr =>
              obtain ⟨o2, it⟩ := pr
              rw [het] at hs
              rw [← (Prod.mk.inj (Except.ok.inj hs)).1]
              exact state_inv_ensure_set h het _ rfl (fun hf => hf)
      | none =>
          rw [hg] at hs
          rw [← (Prod.mk.inj (Except.ok.inj hs)).1]
          exact state_inv_of_eq h rfl rfl
  | title v =>
      simp only [digester_step, option_title_callback] at hs
      cases hg : o.initial_windows.getLast? with
      | some iw =>
          rw [hg] at hs
          cases het : ensure_top_tab o with
          | error e2 => rw [het] at hs; exact absurd hs (by simp)
          | ok pr =>
              obtain ⟨o2, it⟩ := pr
              rw [het] at hs
              rw [← (Prod.mk.inj (Except.ok.inj hs)).1]
              exact state_inv_ensure_set h het _ rfl (fun hf => hf)
      | none =>
          rw [hg] at hs
          rw [← (Prod.mk.inj (Except.ok.inj hs)).1]
          exact state_inv_of_eq h rfl rfl
  | working_directory v =>
      simp only [digester_step, option_working_directory_callback] at hs
      cases hg : o.initial_windows.getLast? with
      | some iw =>
          rw [hg] at hs
          cases het : ensure_top_tab o with
          | error e2 => rw [het] at hs; exact absurd hs (by simp)
          | ok pr =>
              obtain ⟨o2, it⟩ := pr
              rw [het] at hs
              rw [← (Prod.mk.inj (Except.ok.inj hs)).1]
              exact state_inv_ensure_set h het _ rfl (fun hf => hf)
      | none =>
          rw [hg] at hs
          rw [← (Prod.mk.inj (Except.ok.inj hs)).1]
          exact state_inv_of_eq h rfl rfl
  | command c =>
      simp only [digester_step, option_command_callback] at hs
      cases hc : c with
      | none => rw [hc] at hs; exact absurd hs (by simp)
      | some argv =>
          rw [hc] at hs
          cases hg : o.initial_windows.getLast? with
          | some iw =>
              rw [hg] at hs
              cases het : ensure_top_tab o with
              | error e2 => rw [het] at hs; exact absurd hs (by simp)
              | ok pr =>
                  obtain ⟨o2, it⟩ := pr
                  rw [het] at hs
                  rw [← (Prod.mk.inj (Except.ok.inj hs)).1]
                  exact state_inv_ensure_set h het _ rfl (fun hf => hf)
          | none =>
              rw [hg] at hs
              rw [← (Prod.mk.inj (Except.ok.inj hs)).1]
              exact state_inv_of_eq h rfl rfl
  | zoom z =>
      simp only [digester_step, option_zoom_callback] at hs
      cases hg : o.initial_windows.getLast? with
      | some iw =>
          rw [hg] at hs
          cases het : ensure_top_tab o with
          | error e2 => rw [het] at hs; exact absurd hs (by simp)
          | ok pr =>
              obtain ⟨o2, it⟩ := pr
              rw [het] at hs
              rw [← (Prod.mk.inj (Except.ok.inj hs)).1]
              exact state_inv_ensure_set h het _ rfl (fun hf => hf)
      | none =>
          rw [hg] at hs
          rw [← (Prod.mk.inj (Except.ok.inj hs)).1]
          exact state_inv_of_eq h rfl rfl
  | active =>
      simp only [digester_step, option_active_callback] at hs
      cases het : ensure_top_tab o with
      | error e2 => rw [het] at hs; exact absurd hs (by simp)
      | ok pr =>
          obtain ⟨o2, it⟩ := pr
          rw [het] at hs
          rw [← (Prod.mk.inj (Except.ok.inj hs)).1]
          exact state_inv_ensure_set h het _ rfl (fun hf => hf)
  | wait =>
      simp only [digester_step, option_wait_cb] at hs
      by_cases haw : o.any_wait
      · rw [if_pos haw] at hs; exact absurd hs (by simp)
      · rw [if_neg haw] at hs
        cases het : ensure_top_tab { o with any_wait := true } with
        | error e2 => rw [het] at hs; exact absurd hs (by simp)
        | ok pr =>
            obtain ⟨o2, it⟩ := pr
            rw [het] at hs
            rw [← (Prod.mk.inj (Except.ok.inj hs)).1]
            exact state_inv_wait h (by simpa using haw) het
  | fd v =>
      simp only [digester_step, option_pass_fd_cb] at hs
      cases hp : option_fd_parse v with
      | none => rw [hp] at hs; exact absurd hs (by simp)
      | some fdv =>
          rw [hp] at hs
          dsimp only at hs
          by_cases hstd : fdv = 0 ∨ fdv = 1 ∨ fdv = 2
          · rw [if_pos hstd] at hs; exact absurd hs (by simp)
          · rw [if_neg hstd] at hs
            cases het : ensure_top_tab o with
            | error e2 => rw [het] at hs; exact absurd hs (by simp)
            | ok pr =>
                obtain ⟨o2, it⟩ := pr
                rw [het] at hs
                dsimp only at hs
                by_cases hdup : fdv ∈ it.fd_array.map Prod.snd
                · rw [if_pos hdup] at hs; exact absurd hs (by simp)
                · rw [if_neg hdup] at hs
                  rw [← (Prod.mk.inj (Except.ok.inj hs)).1]
                  refine state_inv_ensure_set h het _ rfl ?_
                  intro hf
                  push_neg at hstd
                  exact fd_ok_append hf hdup hstd.1 hstd.2.1 hstd.2.2
  | load_config kf tag =>
      simp only [digester_step] at hs
      cases hr : (terminal_options_merge_config o kf tag).2 with
      | some e2 => rw [hr] at hs; exact absurd hs (by simp)
      | none =>
          rw [hr] at hs
          rw [← (Prod.mk.inj (Except.ok.inj hs)).1]
          have hm : terminal_options_merge_config o kf tag =
              ((terminal_options_merge_config o kf tag).1, none) := by
            rw [← hr]
          exact state_inv_merge_config h hm

theorem state_inv_run :
    ∀ (es : List Event) (o o1 : TerminalOptions) (w : List Warning),
      state_inv o → digester_run o es = .ok (o1, w) → state_inv o1 := by
  intro es
  induction es with
  | nil =>
      intro o o1 w h hr
      rw [← (Prod.mk.inj (Except.ok.inj hr)).1]
      exact h
  | cons e rest ih =>
      intro o o1 w h hr
      rw [digester_run] at hr
      cases hstep : digester_step o e with
      | error err => rw [hstep] at hr; exact absurd hr (by simp)
      | ok pr =>
          obtain ⟨o2, w2⟩ := pr
          rw [hstep] at hr
          dsimp only at hr
          cases hrec : digester_run o2 rest with
          | error err => rw [hrec] at hr; exact absurd hr (by simp)
          | ok pr2 =>
              obtain ⟨o3, w3⟩ := pr2
              rw [hrec] at hr
              rw [← (Prod.mk.inj (Except.ok.inj hr)).1]
              exact ih o2 o3 w3 (state_inv_step h hstep) hrec

theorem step_role_nil {o : TerminalOptions} (hg : o.initial_windows = [])
    (hd : o.default_role = none) (v : String) :
    digester_step o (.role v) = .ok ({ o with default_role := some v }, []) := by
  simp [digester_step, option_role_callback, hg, hd]

theorem step_role_nil_dup {o : TerminalOptions} (hg : o.initial_windows = [])
    {r : String} (hd : o.default_role = some r) (v : String) :
    digester_step o (.role v) = .error .two_roles := by
  simp [digester_step, option_role_callback, hg, hd]

theorem step_geometry_nil {o : TerminalOptions} (hg : o.initial_windows = [])
    (v : String) :
    digester_step o (.geometry v) = .ok ({ o with default_geometry := some v }, []) := by
  simp [digester_step, option_geometry_callback, hg]

theorem step_show_menubar_nil {o : TerminalOptions} (hg : o.initial_windows = []) :
    digester_step o .show_menubar =
      .ok ({ o with default_window_menubar_forced := true,
                    default_window_menubar_state := true }, []) := by
  simp [digester_step, option_show_menubar_callback, hg]

theorem step_hide_menubar_nil {o : TerminalOptions} (hg : o.initial_windows = []) :
    digester_step o .hide_menubar =
      .ok ({ o with default_window_menubar_forced := true,
                    default_window_menubar_state := false }, []) := by
  simp [digester_step, option_hide_menubar_callback, hg]

theorem step_maximize_nil {o : TerminalOptions} (hg : o.initial_windows = []) :
    digester_step o .maximize = .ok ({ o with default_maximize := true }, []) := by
  simp [digester_step, option_maximize_callback, hg]

theorem step_fullscreen_nil {o : TerminalOptions} (hg : o.initial_windows = []) :
    digester_step o .fullscreen = .ok ({ o with default_fullscreen := true }, []) := by
  simp [digester_step, option_fullscreen_callback, hg]

theorem step_profile_nil {o : TerminalOptions} (hg : o.initial_windows = [])
    (p : String) :
    digester_step o (.profile p) = .ok ({ o with default_profile := some p }, []) := by
  simp [digester_step, option_profile_cb, hg]

theorem step_title_nil {o : TerminalOptions} (hg : o.initial_windows = [])
    (v : String) :
    digester_step o (.title v) = .ok ({ o with default_title := some v }, []) := by
  simp [digester_step, option_title_callback, hg]

theorem step_wd_nil {o : TerminalOptions} (hg : o.initial_windows = [])
    (v : String) :
    digester_step o (.working_directory v) =
      .ok ({ o with default_working_dir := some v }, []) := by
  simp [digester_step, option_working_directory_callback, hg]

theorem step_command_nil {o : TerminalOptions} (hg : o.initial_windows = [])
    (a : List String) :
    digester_step o (.command (some a)) =
      .ok ({ o with exec_argv := some a }, [.deprecated "--command"]) := by
  simp [digester_step, option_command_callback, hg]

theorem step_zoom_nil {o : TerminalOptions} (hg : o.initial_windows = [])
    (z : ℚ) :
    digester_step o (.zoom z) = .ok ({ o with zoom := z, zoom_set := true }, []) := by
  simp [digester_step, option_zoom_callback, hg]

theorem windows_ne_nil_of_top_tab? {o : TerminalOptions} {it : InitialTab}
    (htt : top_tab? o = some it) : o.initial_windows.getLast?.isSome := by
  rcases Option.bind_eq_some.mp htt with ⟨iw, hiw, _⟩
  rw [top_window?] at hiw
  rw [hiw]
  rfl

theorem step_title_top {o : TerminalOptions} {it : InitialTab}
    (htt : top_tab? o = some it) (v : String) :
    digester_step o (.title v) =
      .ok (set_top_tab o { it with title := some v }, []) := by
  have hg := windows_ne_nil_of_top_tab? htt
  cases hge : o.initial_windows.getLast? with
  | none => rw [hge] at hg; exact absurd hg (by simp)
  | some iw =>
      simp only [digester_step, option_title_callback, hge,
        ensure_top_tab_of_top_tab? htt]

theorem step_wd_top {o : TerminalOptions} {it : InitialTab}
    (htt : top_tab? o = some it) (v : String) :
    digester_step o (.working_directory v) =
      .ok (set_top_tab o { it with working_dir := some v }, []) := by
  have hg := windows_ne_nil_of_top_tab? htt
  cases hge : o.initial_windows.getLast? with
  | none => rw [hge] at hg; exact absurd hg (by simp)
  | some iw =>
      simp only [digester_step, option_working_directory_callback, hge,
        ensure_top_tab_of_top_tab? htt]

theorem step_profile_top {o : TerminalOptions} {it : InitialTab}
    (htt : top_tab? o = some it) (p : String) :
    digester_step o (.profile p) =
      .ok (set_top_tab o { it with profile := some p }, []) := by
  have hg := windows_ne_nil_of_top_tab? htt
  cases hge : o.initial_windows.getLast? with
  | none => rw [hge] at hg; exact absurd hg (by simp)
  | some iw =>
      simp only [digester_step, option_profile_cb, hge,
        ensure_top_tab_of_top_tab? htt]

theorem step_zoom_top {o : TerminalOptions} {it : InitialTab}
    (htt : top_tab? o = some it) (z : ℚ) :
    digester_step o (.zoom z) =
      .ok (set_top_tab o { it with zoom := z, zoom_set := true }, []) := by
  have hg := windows_ne_nil_of_top_tab? htt
  cases hge : o.initial_windows.getLast? with
  | none => rw [hge] at hg; exact absurd hg (by simp)
  | some iw =>
      simp only [digester_step, option_zoom_callback, hge,
        ensure_top_tab_of_top_tab? htt]

theorem step_command_top {o : TerminalOptions} {it : InitialTab}
    (htt : top_tab? o = some it) (a : List String) :
    digester_step o (.command (some a)) =
      .ok (set_top_tab o { it with exec_argv := some a },
           [.deprecated "--command"]) := by
  have hg := windows_ne_nil_of_top_tab? htt
  cases hge : o.initial_windows.getLast? with
  | none => rw [hge] at hg; exact absurd hg (by simp)
  | some iw =>
      simp only [digester_step, option_command_callback, hge,
        ensure_top_tab_of_top_tab? htt]

theorem step_active_top {o : TerminalOptions} {it : InitialTab}
    (htt : top_tab? o = some it) :
    digester_step o .active =
      .ok (set_top_tab o { it with active := true }, []) := by
  simp only [digester_step, option_active_callback, ensure_top_tab_of_top_tab? htt]

theorem step_wait_top {o : TerminalOptions} {it : InitialTab}
    (htt : top_tab? o = some it) (haw : o.any_wait = false) :
    digester_step o .wait =
      .ok (set_top_tab ({ o with any_wait := true } : TerminalOptions)
             { it with wait := true }, []) := by
  have htt2 : top_tab? ({ o with any_wait := true } : TerminalOptions) = some it := htt
  simp only [digester_step, option_wait_cb, haw,
    ensure_top_tab_of_top_tab? htt2]
  rw [if_neg (by simp [haw])]

theorem step_fd_top {o : TerminalOptions} {it : InitialTab} {v : String} {n : Int}
    (htt : top_tab? o = some it) (hp : option_fd_parse v = some n)
    (hstd : ¬(n = 0 ∨ n = 1 ∨ n = 2)) (hdup : n ∉ it.fd_array.map Prod.snd) :
    digester_step o (.fd v) =
      .ok (set_top_tab o
             { it with fd_array := it.fd_array ++ [(it.fd_array.length, n)] }, []) := by
  simp only [digester_step, option_pass_fd_cb, hp, ensure_top_tab_of_top_tab? htt]
  rw [if_neg hstd, if_neg hdup]

theorem step_role_top {o : TerminalOptions} {iw : InitialWindow}
    (htw : top_window? o = some iw) (v : String) :
    digester_step o (.role v) =
      .ok (modify_top_window o (fun w => { w with role := some v }), []) := by
  rw [top_window?] at htw
  simp only [digester_step, option_role_callback, htw]

theorem step_geometry_top {o : TerminalOptions} {iw : InitialWindow}
    (htw : top_window? o = some iw) (v : String) :
    digester_step o (.geometry v) =
      .ok (modify_top_window o (fun w => { w with geometry := some v }), []) := by
  rw [top_window?] at htw
  simp only [digester_step, option_geometry_callback, htw]

theorem step_maximize_top {o : TerminalOptions} {iw : InitialWindow}
    (htw : top_window? o = some iw) :
    digester_step o .maximize =
      .ok (modify_top_window o (fun w => { w with start_maximized := true }), []) := by
  rw [top_window?] at htw
  simp only [digester_step, option_maximize_callback, htw]

theorem step_fullscreen_top {o : TerminalOptions} {iw : InitialWindow}
    (htw : top_window? o = some iw) :
    digester_step o .fullscreen =
      .ok (modify_top_window o (fun w => { w with start_fullscreen := true }), []) := by
  rw [top_window?] at htw
  simp only [digester_step, option_fullscreen_callback, htw]

theorem step_show_menubar_top_dup {o : TerminalOptions} {iw : InitialWindow}
    (htw : top_window? o = some iw) (hf : iw.force_menubar_state = true)
    (hm : iw.menubar_state = true) :
    digester_step o .show_menubar =
      .ok (o, [.duplicate_option "--show-menubar"]) := by
  rw [top_window?] at htw
  simp only [digester_step, option_show_menubar_callback, htw]
  rw [if_pos (by simp [hf, hm])]

theorem step_show_menubar_top_set {o : TerminalOptions} {iw : InitialWindow}
    (htw : top_window? o = some iw)
    (hc : ¬(iw.force_menubar_state = true ∧ iw.menubar_state = true)) :
    digester_step o .show_menubar =
      .ok (modify_top_window o
             (fun w => { w with force_menubar_state := true,
                                menubar_state := true }), []) := by
  rw [top_window?] at htw
  simp only [digester_step, option_show_menubar_callback, htw]
  rw [if_neg (by simpa [Bool.and_eq_true] using hc)]

theorem step_hide_menubar_top_dup {o : TerminalOptions} {iw : InitialWindow}
    (htw : top_window? o = some iw) (hf : iw.force_menubar_state = true)
    (hm : iw.menubar_state = false) :
    digester_step o .hide_menubar =
      .ok (o, [.duplicate_option "--hide-menubar"]) := by
  rw [top_window?] at htw
  simp only [digester_step, option_hide_menubar_callback, htw]
  rw [if_pos (by simp [hf, hm])]

theorem step_hide_menubar_top_set {o : TerminalOptions} {iw : InitialWindow}
    (htw : top_window? o = some iw)
    (hc : ¬(iw.force_menubar_state = true ∧ iw.menubar_state = false)) :
    digester_step o .hide_menubar =
      .ok (modify_top_window o
             (fun w => { w with force_menubar_state := true,
                                menubar_state := false }), []) := by
  rw [top_window?] at htw
  simp only [digester_step, option_hide_menubar_callback, htw]
  rw [if_neg (by
    simp only [Bool.and_eq_true, Bool.not_eq_true']
    intro hx
    exact hc ⟨hx.1, by simpa using hx.2⟩)]

/-- Counterexample to C8: when the matched flag is the final token the loop
breaks before the truncation is applied, so the matched token is not
removed from the list handed to the formal parser: a trailing -x survives
the prescan while the claim requires the matched token to be removed. -/
theorem C8_counterexample :
    prescan ["-x"] = (["-x"], none, true) ∧ (["-x"] : List String) ≠ [] := by
  exact ⟨rfl, by decide⟩

/-- C8 as amended: the prescanner acts only on the first occurrence of a
legacy execute flag or a bare separator in the raw argument list: every
token strictly after that first match becomes the literal trailing command
verbatim; when at least one token follows the match, the matched token and
everything after it are removed from the list handed to the formal parser,
but when the match is the final token nothing is captured and nothing is
removed, the flag itself staying in the list; execute is set exactly when
the match was the legacy flag; and when no such token appears the list is
unchanged and no trailing command is recorded. -/
theorem C8_prescan_spec :
    (∀ args : List String, (∀ t ∈ args, prescan_stop t = false) →
        prescan args = (args, none, false)) ∧
    (∀ (pre : List String) (m : String) (post : List String),
        (∀ t ∈ pre, prescan_stop t = false) → prescan_stop m = true →
        post ≠ [] →
        prescan (pre ++ m :: post) =
          (pre, some post, decide (m = "-x" ∨ m = "--execute"))) ∧
    (∀ (pre : List String) (m : String),
        (∀ t ∈ pre, prescan_stop t = false) → prescan_stop m = true →
        prescan (pre ++ [m]) =
          (pre ++ [m], none, decide (m = "-x" ∨ m = "--execute"))) := by
  refine ⟨?_, ?_, ?_⟩
  · intro args
    induction args with
    | nil => intro _; rfl
    | cons a rest ih =>
        intro h
        have ha := h a (List.mem_cons_self a rest)
        simp only [prescan_stop, Bool.or_eq_false_iff,
          decide_eq_false_iff_not] at ha
        rw [prescan, if_neg (by tauto), if_neg ha.2]
        rw [ih (fun t ht => h t (List.mem_cons_of_mem a ht))]
  · intro pre
    induction pre with
    | nil =>
        intro m post _ hm hpost
        simp only [prescan_stop, Bool.or_eq_true, decide_eq_true_eq] at hm
        have hpe : post.isEmpty = false := by
          cases post with
          | nil => exact absurd rfl hpost
          | cons x xs => rfl
        rw [List.nil_append, prescan]
        by_cases h1 : m = "-x" ∨ m = "--execute"
        · rw [if_pos h1, hpe]
          have hd : decide (m = "-x" ∨ m = "--execute") = true := by simp [h1]
          rw [hd]
          rfl
        · have hm2 : m = "--" := by tauto
          rw [if_neg h1, if_pos hm2, hpe]
          have hd : decide (m = "-x" ∨ m = "--execute") = false := by simp [h1]
          rw [hd]
          rfl
    | cons p pre ih =>
        intro m post hpre hm hpost
        have hp := hpre p (List.mem_cons_self p pre)
        simp only [prescan_stop, Bool.or_eq_false_iff,
          decide_eq_false_iff_not] at hp
        rw [List.cons_append, prescan, if_neg (by tauto), if_neg hp.2]
        rw [ih m post (fun t ht => hpre t (List.mem_cons_of_mem p ht)) hm hpost]
  · intro pre
    induction pre with
    | nil =>
        intro m _ hm
        simp only [prescan_stop, Bool.or_eq_true, decide_eq_true_eq] at hm
        rw [List.nil_append, prescan]
        by_cases h1 : m = "-x" ∨ m = "--execute"
        · rw [if_pos h1]
          have hd : decide (m = "-x" ∨ m = "--execute") = true := by simp [h1]
          rw [hd]
          rfl
        · have hm2 : m = "--" := by tauto
          rw [if_neg h1, if_pos hm2]
          have hd : decide (m = "-x" ∨ m = "--execute") = false := by simp [h1]
          rw [hd]
          rfl
    | cons p pre ih =>
        intro m hpre hm
        have hp := hpre p (List.mem_cons_self p pre)
        simp only [prescan_stop, Bool.or_eq_false_iff,
          decide_eq_false_iff_not] at hp
        rw [List.cons_append, prescan, if_neg (by tauto), if_neg hp.2]
        rw [ih m (fun t ht => hpre t (List.mem_cons_of_mem p ht)) hm]

/-- Witness for C8 at concrete argument vectors: no match, a separator with
tokens after it, and a trailing legacy flag that stays in the list. -/
theorem C8_prescan_spec_witness :
    prescan ["a", "b"] = (["a", "b"], none, false) ∧
    prescan (["--title", "t"] ++ "--" :: ["foo", "bar"]) =
      (["--title", "t"], some ["foo", "bar"],
       decide (("--" : String) = "-x" ∨ ("--" : String) = "--execute")) ∧
    prescan (["a"] ++ ["-x"]) =
      (["a"] ++ ["-x"], none,
       decide (("-x" : String) = "-x" ∨ ("-x" : String) = "--execute")) := by
  refine ⟨?_, ?_, ?_⟩
  · exact C8_prescan_spec.1 ["a", "b"] (by decide)
  · exact C8_prescan_spec.2.1 ["--title", "t"] "--" ["foo", "bar"]
      (by decide) (by decide) (by decide)
  · exact C8_prescan_spec.2.2 ["a"] "-x" (by decide) (by decide)

theorem apply_defaults_fst_menubar_forced (o : TerminalOptions) (iw : InitialWindow) :
    (apply_defaults o iw).1.default_window_menubar_forced = false := by
  by_cases hF : o.default_window_menubar_forced
  · simp [apply_defaults, hF]
  · simp only [apply_defaults, if_neg hF]
    split_ifs <;> simpa using hF

theorem apply_defaults_snd_menubar_of_forced {o : TerminalOptions}
    (iw : InitialWindow) (hF : o.default_window_menubar_forced = true) :
    (apply_defaults o iw).2.force_menubar_state = true ∧
    (apply_defaults o iw).2.menubar_state = o.default_window_menubar_state := by
  simp [apply_defaults, hF]

theorem apply_defaults_snd_menubar_of_unforced {o : TerminalOptions}
    (iw : InitialWindow) (hF : o.default_window_menubar_forced = false) :
    (apply_defaults o iw).2.force_menubar_state = iw.force_menubar_state ∧
    (apply_defaults o iw).2.menubar_state = iw.menubar_state := by
  simp only [apply_defaults, hF, if_false, Bool.false_eq_true]
  cases o.default_role <;> split_ifs <;> simp

theorem apply_defaults_snd_geometry_none {o : TerminalOptions}
    {iw : InitialWindow} (hG : iw.geometry = none) :
    (apply_defaults o iw).2.geometry = o.default_geometry := by
  simp only [apply_defaults]
  cases o.default_role <;> split_ifs <;> simp_all

theorem apply_defaults_snd_geometry_some {o : TerminalOptions}
    {iw : InitialWindow} {g : String} (hG : iw.geometry = some g) :
    (apply_defaults o iw).2.geometry = some g := by
  simp only [apply_defaults]
  cases o.default_role <;> split_ifs <;> simp_all

theorem add_new_window_mg_forced (o : TerminalOptions) (p : Option String)
    (b : Bool) (hF : o.default_window_menubar_forced = true) :
    (add_new_window o p b).initial_windows.map
        (fun w => (w.force_menubar_state, w.geometry)) =
      o.initial_windows.map (fun w => (w.force_menubar_state, w.geometry)) ++
        [(true, o.default_geometry)] := by
  rw [add_new_window_windows, List.map_append]
  simp only [List.map_cons, List.map_nil]
  rw [(apply_defaults_snd_menubar_of_forced _ hF).1,
    apply_defaults_snd_geometry_none rfl]

theorem add_new_window_mg_unforced (o : TerminalOptions) (p : Option String)
    (b : Bool) (hF : o.default_window_menubar_forced = false) :
    (add_new_window o p b).initial_windows.map
        (fun w => (w.force_menubar_state, w.geometry)) =
      o.initial_windows.map (fun w => (w.force_menubar_state, w.geometry)) ++
        [(false, o.default_geometry)] := by
  rw [add_new_window_windows, List.map_append]
  simp only [List.map_cons, List.map_nil]
  rw [(apply_defaults_snd_menubar_of_unforced _ hF).1,
    apply_defaults_snd_geometry_none rfl]
  rfl

/-- C10: applying the defaults at window creation consumes the forced
menubar default: the flag is cleared, so the forced state reaches only the
first window created while it was set; the default geometry is copied
rather than cleared, so it reaches every subsequently created window that
has no geometry of its own.  The last conjunct exhibits two successive
window creations from a forced state: only the first window gets the forced
menubar state, both get the default geometry. -/
theorem C10_apply_defaults_spec :
    ∀ (o : TerminalOptions) (iw : InitialWindow),
      (o.default_window_menubar_forced = true →
        (apply_defaults o iw).1.default_window_menubar_forced = false ∧
        (apply_defaults o iw).2.force_menubar_state = true ∧
        (apply_defaults o iw).2.menubar_state = o.default_window_menubar_state) ∧
      (o.default_window_menubar_forced = false →
        (apply_defaults o iw).2.force_menubar_state = iw.force_menubar_state ∧
        (apply_defaults o iw).2.menubar_state = iw.menubar_state) ∧
      (apply_defaults o iw).1.default_geometry = o.default_geometry ∧
      (iw.geometry = none →
        (apply_defaults o iw).2.geometry = o.default_geometry) ∧
      (∀ g, iw.geometry = some g → (apply_defaults o iw).2.geometry = some g) ∧
      (o.default_window_menubar_forced = true →
        ((add_new_window (add_new_window o none true) none true).initial_windows.map
            (fun w => (w.force_menubar_state, w.geometry)))
          = o.initial_windows.map (fun w => (w.force_menubar_state, w.geometry)) ++
              [(true, o.default_geometry), (false, o.default_geometry)]) := by
  intro o iw
  refine ⟨?_, ?_, apply_defaults_fst_default_geometry o iw, ?_, ?_, ?_⟩
  · intro hF
    exact ⟨apply_defaults_fst_menubar_forced o iw,
      (apply_defaults_snd_menubar_of_forced iw hF).1,
      (apply_defaults_snd_menubar_of_forced iw hF).2⟩
  · intro hF
    exact apply_defaults_snd_menubar_of_unforced iw hF
  · intro hG
    exact apply_defaults_snd_geometry_none hG
  · intro g hG
    exact apply_defaults_snd_geometry_some hG
  · intro hF
    have h2F : (add_new_window o none true).default_window_menubar_forced = false := by
      simp only [add_new_window]
      exact apply_defaults_fst_menubar_forced o _
    have h2g : (add_new_window o none true).default_geometry = o.default_geometry := by
      simp only [add_new_window]
      exact apply_defaults_fst_default_geometry o _
    rw [add_new_window_mg_unforced _ none true h2F,
      add_new_window_mg_forced o none true hF, h2g, List.append_assoc]
    rfl

theorem state_inv_initial (cwd : String) : state_inv (initial_options cwd) := by
  refine ⟨?_, ?_, ?_⟩
  · intro _ iw hiw
    exact absurd hiw (by simp [initial_options])
  · simp [initial_options, waitCountL]
  · intro iw hiw
    exact absurd hiw (by simp [initial_options])

/-- C5 states the intended invariant, which the program itself fails to
establish only because initial_tab_new never assigns the wait field of a
freshly allocated tab (see its doc comment): under the intended zero
initialization of wait, across an entire run starting from the initial
options at most one tab ends with wait set; the first wait event (global
flag still clear) sets wait on the current tab, and a second wait event
anywhere in the stream, whatever window or tab is current, fails with the
once-only fatal error, exactly as the code implements it. -/
theorem C5_wait_unique :
    (∀ (cwd : String) (es : List Event) (o : TerminalOptions) (w : List Warning),
        digester_run (initial_options cwd) es = .ok (o, w) →
        waitCountL o.initial_windows ≤ 1) ∧
    (∀ (o : TerminalOptions) (it : InitialTab), o.any_wait = false →
        top_tab? o = some it →
        digester_step o .wait =
          .ok (set_top_tab ({ o with any_wait := true } : TerminalOptions)
                 { it with wait := true }, [])) ∧
    (∀ o : TerminalOptions, o.any_wait = true →
        digester_step o .wait = .error .wait_twice) := by
  refine ⟨?_, ?_, ?_⟩
  · intro cwd es o w h
    exact (state_inv_run es (initial_options cwd) o w (state_inv_initial cwd) h).2.1
  · intro o it haw htt
    exact step_wait_top htt haw
  · intro o haw
    simp [digester_step, option_wait_cb, haw]

def c5w0 : TerminalOptions :=
  { initial_options "/" with
      initial_windows := [{ initial_window_new 0 with
        implicit_first_window := true, tabs := [initial_tab_new none] }] }

def c5s : TerminalOptions :=
  { initial_options "/" with
      any_wait := true,
      initial_windows := [{ initial_window_new 0 with
        implicit_first_window := true,
        tabs := [{ initial_tab_new none with wait := true }] }] }

/-- Witness for C5: a run consisting of one wait event reaches a state with
one waiting tab; a wait event there fails. -/
theorem C5_wait_unique_witness :
    waitCountL c5s.initial_windows ≤ 1 ∧
    digester_step c5w0 .wait =
      .ok (set_top_tab ({ c5w0 with any_wait := true } : TerminalOptions)
             { initial_tab_new none with wait := true }, []) ∧
    digester_step c5s .wait = .error .wait_twice := by
  refine ⟨C5_wait_unique.1 "/" [Event.wait] c5s [] (by rfl), ?_, ?_⟩
  · exact C5_wait_unique.2.1 c5w0 (initial_tab_new none) (by decide) (by decide)
  · exact C5_wait_unique.2.2 c5s (by decide)

/-- C6: an fd-forward event fails when its value does not pass the numeric
parse of the callback, when the parsed descriptor is 0, 1 or 2 (rejected by
name in any context), or when the descriptor is already in the current tab
forward list; otherwise the pair is appended with the next sequential local
index; consequently, in every state reachable from the initial options,
every tab forward list has sequential indices, pairwise distinct target
descriptors, and none of the three standard streams. -/
theorem C6_fd_spec :
    (∀ (o : TerminalOptions) (v : String), option_fd_parse v = none →
        digester_step o (.fd v) = .error (.bad_fd v)) ∧
    (∀ (o : TerminalOptions) (v : String) (n : Int), option_fd_parse v = some n →
        (n = 0 ∨ n = 1 ∨ n = 2) → digester_step o (.fd v) = .error (.fd_stdio n)) ∧
    (∀ (o : TerminalOptions) (v : String) (n : Int) (it : InitialTab),
        option_fd_parse v = some n → ¬(n = 0 ∨ n = 1 ∨ n = 2) →
        top_tab? o = some it → n ∈ it.fd_array.map Prod.snd →
        digester_step o (.fd v) = .error (.fd_duplicate n)) ∧
    (∀ (o : TerminalOptions) (v : String) (n : Int) (it : InitialTab),
        option_fd_parse v = some n → ¬(n = 0 ∨ n = 1 ∨ n = 2) →
        top_tab? o = some it → n ∉ it.fd_array.map Prod.snd →
        digester_step o (.fd v) =
          .ok (set_top_tab o
                 { it with fd_array := it.fd_array ++ [(it.fd_array.length, n)] },
               [])) ∧
    (∀ (cwd : String) (es : List Event) (o : TerminalOptions) (w : List Warning),
        digester_run (initial_options cwd) es = .ok (o, w) →
        allTabsL fd_ok o.initial_windows) := by
  refine ⟨?_, ?_, ?_, ?_, ?_⟩
  · intro o v h
    simp [digester_step, option_pass_fd_cb, h]
  · intro o v n hp hstd
    simp only [digester_step, option_pass_fd_cb, hp]
    rw [if_pos hstd]
  · intro o v n it hp hstd htt hdup
    simp only [digester_step, option_pass_fd_cb, hp, ensure_top_tab_of_top_tab? htt]
    rw [if_neg hstd, if_pos hdup]
  · intro o v n it hp hstd htt hdup
    exact step_fd_top htt hp hstd hdup
  · intro cwd es o w h
    exact (state_inv_run es (initial_options cwd) o w (state_inv_initial cwd) h).2.2

def c6dup : TerminalOptions :=
  { initial_options "/" with
      initial_windows := [{ initial_window_new 0 with
        implicit_first_window := true,
        tabs := [{ initial_tab_new none with fd_array := [(0, 5)] }] }] }

/-- Witness for C6 at concrete inputs: a malformed value, a standard stream,
a duplicate, a successful append, and the invariant after one fd event. -/
theorem C6_fd_spec_witness :
    digester_step (initial_options "/") (.fd "abc") = .error (.bad_fd "abc") ∧
    digester_step (initial_options "/") (.fd "0") = .error (.fd_stdio 0) ∧
    digester_step c6dup (.fd "5") = .error (.fd_duplicate 5) ∧
    digester_step c6dup (.fd "7") =
      .ok (set_top_tab c6dup
             { initial_tab_new none with fd_array := [(0, 5), (1, 7)] }, []) ∧
    allTabsL fd_ok c6dup.initial_windows := by
  refine ⟨?_, ?_, ?_, ?_, ?_⟩
  · exact C6_fd_spec.1 (initial_options "/") "abc" (by decide)
  · exact C6_fd_spec.2.1 (initial_options "/") "0" 0 (by decide) (by decide)
  · exact C6_fd_spec.2.2.1 c6dup "5" 5
      { initial_tab_new none with fd_array := [(0, 5)] }
      (by decide) (by decide) (by decide) (by decide)
  · exact C6_fd_spec.2.2.2.1 c6dup "7" 7
      { initial_tab_new none with fd_array := [(0, 5)] }
      (by decide) (by decide) (by decide) (by decide)
  · exact C6_fd_spec.2.2.2.2 "/" [Event.fd "5"] c6dup [] (by rfl)

/-- Counterexample to C4: with a window open, a second role event does not
fail; it silently overwrites the recorded role, so the run
window, role A, role B succeeds and leaves role B on the window. -/
theorem C4_counterexample :
    (digester_run (initial_options "/")
        [.window none, .role "A", .role "B"]).map
      (fun r => (r.2, (top_window? r.1).map (fun iw => iw.role))) =
    .ok ([], some (some "B")) := by rfl

/-- C4 as amended: the two-roles fatal error occurs only in the defaults
phase, while no window exists and a default role is already recorded; a
role event that targets an existing window silently overwrites its recorded
role; and one role on each of two windows succeeds for both. -/
theorem C4_role_spec :
    (∀ (o : TerminalOptions) (v : String), o.initial_windows = [] →
        o.default_role = none →
        digester_step o (.role v) = .ok ({ o with default_role := some v }, [])) ∧
    (∀ (o : TerminalOptions) (v r : String), o.initial_windows = [] →
        o.default_role = some r →
        digester_step o (.role v) = .error .two_roles) ∧
    (∀ (o : TerminalOptions) (iw : InitialWindow) (v : String),
        top_window? o = some iw →
        (digester_step o (.role v)).map
            (fun r => (r.2, r.1.initial_windows.dropLast,
              r.1.initial_windows.length, top_window? r.1)) =
          .ok ([], o.initial_windows.dropLast, o.initial_windows.length,
            some { iw with role := some v })) ∧
    (∀ (cwd r1 r2 : String),
        (digester_run (initial_options cwd)
            [.window none, .role r1, .window none, .role r2]).map
          (fun p => p.1.initial_windows.map (fun iw => iw.role)) =
        .ok [some r1, some r2]) := by
  refine ⟨?_, ?_, ?_, ?_⟩
  · intro o v hg hd
    exact step_role_nil hg hd v
  · intro o v r hg hd
    exact step_role_nil_dup hg hd v
  · intro o iw v htw
    rw [step_role_top htw v]
    simp only [Except.map]
    rw [dropLast_modify_top_window, length_modify_top_window,
      top_window?_modify_top_window, htw]
    rfl
  · intro cwd r1 r2
    rfl

def c4w1 : TerminalOptions :=
  { initial_options "/" with
      initial_windows := [{ initial_window_new 0 with
        implicit_first_window := false, tabs := [initial_tab_new none],
        role := some "A" }] }

/-- Witness for C4 at concrete inputs. -/
theorem C4_role_spec_witness :
    digester_step (initial_options "/") (.role "A") =
      .ok ({ initial_options "/" with default_role := some "A" }, []) ∧
    digester_step ({ initial_options "/" with default_role := some "A" })
        (.role "B") = .error .two_roles ∧
    (digester_step c4w1 (.role "B")).map
        (fun r => (r.2, r.1.initial_windows.dropLast,
          r.1.initial_windows.length, top_window? r.1)) =
      .ok ([], c4w1.initial_windows.dropLast, c4w1.initial_windows.length,
        some { initial_window_new 0 with
          implicit_first_window := false, tabs := [initial_tab_new none],
          role := some "B" }) ∧
    (digester_run (initial_options "/")
        [.window none, .role "A", .window none, .role "B"]).map
      (fun p => p.1.initial_windows.map (fun iw => iw.role)) =
    .ok [some "A", some "B"] := by
  refine ⟨?_, ?_, ?_, ?_⟩
  · exact C4_role_spec.1 (initial_options "/") "A" rfl rfl
  · exact C4_role_spec.2.1 _ "B" "A" rfl rfl
  · exact C4_role_spec.2.2.1 c4w1
      { initial_window_new 0 with
        implicit_first_window := false, tabs := [initial_tab_new none],
        role := some "A" } "B" rfl
  · exact C4_role_spec.2.2.2 "/" "A" "B"

/-- Counterexample to C3: hide-menubar then show-menubar on the same window
is neither warned about nor ignored: the run emits no warning and the
recorded forced state is silently overwritten from hidden to visible. -/
theorem C3_counterexample :
    (digester_run (initial_options "/")
        [.window none, .hide_menubar, .show_menubar]).map
      (fun r => (r.2, (top_window? r.1).map
        (fun iw => (iw.force_menubar_state, iw.menubar_state)))) =
    .ok ([], some (true, true)) := by rfl

/-- C3 as amended: a second show-menubar or hide-menubar requesting the
state the window already forces is reported as a duplicate-option warning
and ignored, leaving the recorded state intact; a request for the
conflicting state emits no warning and silently overwrites the recorded
state. -/
theorem C3_menubar_spec :
    ∀ (o : TerminalOptions) (iw : InitialWindow), top_window? o = some iw →
      (iw.force_menubar_state = true → iw.menubar_state = true →
          digester_step o .show_menubar =
            .ok (o, [.duplicate_option "--show-menubar"])) ∧
      (iw.force_menubar_state = true → iw.menubar_state = false →
          digester_step o .hide_menubar =
            .ok (o, [.duplicate_option "--hide-menubar"])) ∧
      (¬(iw.force_menubar_state = true ∧ iw.menubar_state = true) →
          (digester_step o .show_menubar).map
              (fun r => (r.2, (top_window? r.1).map
                (fun w2 => (w2.force_menubar_state, w2.menubar_state)))) =
            .ok ([], some (true, true))) ∧
      (¬(iw.force_menubar_state = true ∧ iw.menubar_state = false) →
          (digester_step o .hide_menubar).map
              (fun r => (r.2, (top_window? r.1).map
                (fun w2 => (w2.force_menubar_state, w2.menubar_state)))) =
            .ok ([], some (true, false))) := by
  intro o iw htw
  refine ⟨?_, ?_, ?_, ?_⟩
  · intro hf hm
    exact step_show_menubar_top_dup htw hf hm
  · intro hf hm
    exact step_hide_menubar_top_dup htw hf hm
  · intro hc
    rw [step_show_menubar_top_set htw hc]
    simp only [Except.map]
    rw [top_window?_modify_top_window, htw]
    rfl
  · intro hc
    rw [step_hide_menubar_top_set htw hc]
    simp only [Except.map]
    rw [top_window?_modify_top_window, htw]
    rfl

def c3hidden : TerminalOptions :=
  { initial_options "/" with
      initial_windows := [{ initial_window_new 0 with
        implicit_first_window := false, tabs := [initial_tab_new none],
        force_menubar_state := true, menubar_state := false }] }

/-- Witness for C3 at a window whose menubar is forced hidden: a repeated
hide warns and is ignored, a conflicting show silently overwrites. -/
theorem C3_menubar_spec_witness :
    digester_step c3hidden .hide_menubar =
      .ok (c3hidden, [.duplicate_option "--hide-menubar"]) ∧
    (digester_step c3hidden .show_menubar).map
        (fun r => (r.2, (top_window? r.1).map
          (fun w2 => (w2.force_menubar_state, w2.menubar_state)))) =
      .ok ([], some (true, true)) := by
  have h := C3_menubar_spec c3hidden
    { initial_window_new 0 with
      implicit_first_window := false, tabs := [initial_tab_new none],
      force_menubar_state := true, menubar_state := false } rfl
  exact ⟨h.2.1 rfl rfl, h.2.2.1 (by simp)⟩

theorem triple_set_top_tab {o : TerminalOptions} {it : InitialTab}
    (htt : top_tab? o = some it) (it2 : InitialTab) :
    ((set_top_tab o it2).initial_windows.dropLast,
     (set_top_tab o it2).initial_windows.length,
     top_tab? (set_top_tab o it2)) =
      (o.initial_windows.dropLast, o.initial_windows.length, some it2) := by
  rw [show (set_top_tab o it2).initial_windows.dropLast =
        o.initial_windows.dropLast from dropLast_modify_top_window o _,
    show (set_top_tab o it2).initial_windows.length =
        o.initial_windows.length from length_modify_top_window o _,
    top_tab?_set_top_tab htt it2]

/-- Counterexample to C2: a wait event arriving while no window
specification exists does not record its effect in the defaults; it creates
a window specification (with one tab carrying the wait mark). -/
theorem C2_counterexample :
    (initial_options "/").initial_windows = [] ∧
    (digester_step (initial_options "/") .wait).map
        (fun r => (r.1.initial_windows.length,
          (top_tab? r.1).map (fun it => it.wait))) = .ok (1, some true) := by
  exact ⟨rfl, by rfl⟩

/-- C2 as amended: when no window specification exists, the per-window flags
(role, geometry, menubar show and hide, maximize, fullscreen) and the
per-tab flags profile, title, working directory, command and zoom record
their effect in the process-wide defaults and create no window
specification; the wait, fd-forward and active-marker flags instead
implicitly create the first window and tab and record their effect there;
when a window exists, every one of these flags targets the current (most
recently appended) window or tab, leaving the earlier windows, the window
count and the defaults record untouched. -/
theorem C2_flag_targeting :
    (∀ (o : TerminalOptions) (v p : String) (q : ℚ) (a : List String),
        o.initial_windows = [] →
        ((o.default_role = none → digester_step o (.role v) =
            .ok ({ o with default_role := some v }, [])) ∧
         digester_step o (.geometry v) =
           .ok ({ o with default_geometry := some v }, []) ∧
         digester_step o .show_menubar =
           .ok ({ o with default_window_menubar_forced := true,
                         default_window_menubar_state := true }, []) ∧
         digester_step o .hide_menubar =
           .ok ({ o with default_window_menubar_forced := true,
                         default_window_menubar_state := false }, []) ∧
         digester_step o .maximize = .ok ({ o with default_maximize := true }, []) ∧
         digester_step o .fullscreen = .ok ({ o with default_fullscreen := true }, []) ∧
         digester_step o (.profile p) =
           .ok ({ o with default_profile := some p }, []) ∧
         digester_step o (.title v) = .ok ({ o with default_title := some v }, []) ∧
         digester_step o (.working_directory v) =
           .ok ({ o with default_working_dir := some v }, []) ∧
         digester_step o (.command (some a)) =
           .ok ({ o with exec_argv := some a }, [.deprecated "--command"]) ∧
         digester_step o (.zoom q) =
           .ok ({ o with zoom := q, zoom_set := true }, []))) ∧
    (∀ (o : TerminalOptions) (v : String) (n : Int), o.initial_windows = [] →
        ((o.any_wait = false →
            (digester_step o .wait).map (fun r => r.1.initial_windows.length) =
              .ok 1) ∧
         (digester_step o .active).map (fun r => r.1.initial_windows.length) =
           .ok 1 ∧
         (option_fd_parse v = some n → ¬(n = 0 ∨ n = 1 ∨ n = 2) →
            (digester_step o (.fd v)).map (fun r => r.1.initial_windows.length) =
              .ok 1))) ∧
    (∀ (o : TerminalOptions) (iw : InitialWindow) (v : String),
        top_window? o = some iw →
        ((digester_step o (.role v)).map
            (fun r => (r.1.initial_windows.dropLast, r.1.initial_windows.length,
              top_window? r.1)) =
          .ok (o.initial_windows.dropLast, o.initial_windows.length,
            some { iw with role := some v }) ∧
         (digester_step o (.geometry v)).map
            (fun r => (r.1.initial_windows.dropLast, r.1.initial_windows.length,
              top_window? r.1)) =
          .ok (o.initial_windows.dropLast, o.initial_windows.length,
            some { iw with geometry := some v }) ∧
         (digester_step o .maximize).map
            (fun r => (r.1.initial_windows.dropLast, r.1.initial_windows.length,
              top_window? r.1)) =
          .ok (o.initial_windows.dropLast, o.initial_windows.length,
            some { iw with start_maximized := true }) ∧
         (digester_step o .fullscreen).map
            (fun r => (r.1.initial_windows.dropLast, r.1.initial_windows.length,
              top_window? r.1)) =
          .ok (o.initial_windows.dropLast, o.initial_windows.length,
            some { iw with start_fullscreen := true }) ∧
         (iw.force_menubar_state = false →
            (digester_step o .show_menubar).map
                (fun r => (r.1.initial_windows.dropLast,
                  r.1.initial_windows.length, top_window? r.1)) =
              .ok (o.initial_windows.dropLast, o.initial_windows.length,
                some { iw with force_menubar_state := true,
                               menubar_state := true })) ∧
         (iw.force_menubar_state = false →
            (digester_step o .hide_menubar).map
                (fun r => (r.1.initial_windows.dropLast,
                  r.1.initial_windows.length, top_window? r.1)) =
              .ok (o.initial_windows.dropLast, o.initial_windows.length,
                some { iw with force_menubar_state := true,
                               menubar_state := false })))) ∧
    (∀ (o : TerminalOptions) (it : InitialTab) (v p : String) (q : ℚ)
        (a : List String) (n : Int) (s : String),
        top_tab? o = some it →
        ((digester_step o (.title v)).map
            (fun r => (r.1.initial_windows.dropLast, r.1.initial_windows.length,
              top_tab? r.1)) =
          .ok (o.initial_windows.dropLast, o.initial_windows.length,
            some { it with title := some v }) ∧
         (digester_step o (.working_directory v)).map
            (fun r => (r.1.initial_windows.dropLast, r.1.initial_windows.length,
              top_tab? r.1)) =
          .ok (o.initial_windows.dropLast, o.initial_windows.length,
            some { it with working_dir := some v }) ∧
         (digester_step o (.profile p)).map
            (fun r => (r.1.initial_windows.dropLast, r.1.initial_windows.length,
              top_tab? r.1)) =
          .ok (o.initial_windows.dropLast, o.initial_windows.length,
            some { it with profile := some p }) ∧
         (digester_step o (.command (some a))).map
            (fun r => (r.1.initial_windows.dropLast, r.1.initial_windows.length,
              top_tab? r.1)) =
          .ok (o.initial_windows.dropLast, o.initial_windows.length,
            some { it with exec_argv := some a }) ∧
         (digester_step o (.zoom q)).map
            (fun r => (r.1.initial_windows.dropLast, r.1.initial_windows.length,
              top_tab? r.1)) =
          .ok (o.initial_windows.dropLast, o.initial_windows.length,
            some { it with zoom := q, zoom_set := true }) ∧
         (digester_step o .active).map
            (fun r => (r.1.initial_windows.dropLast, r.1.initial_windows.length,
              top_tab? r.1)) =
          .ok (o.initial_windows.dropLast, o.initial_windows.length,
            some { it with active := true }) ∧
         (o.any_wait = false →
            (digester_step o .wait).map
                (fun r => (r.1.initial_windows.dropLast,
                  r.1.initial_windows.length, top_tab? r.1)) =
              .ok (o.initial_windows.dropLast, o.initial_windows.length,
                some { it with wait := true })) ∧
         (option_fd_parse s = some n → ¬(n = 0 ∨ n = 1 ∨ n = 2) →
            n ∉ it.fd_array.map Prod.snd →
            (digester_step o (.fd s)).map
                (fun r => (r.1.initial_windows.dropLast,
                  r.1.initial_windows.length, top_tab? r.1)) =
              .ok (o.initial_windows.dropLast, o.initial_windows.length,
                some { it with
                  fd_array := it.fd_array ++ [(it.fd_array.length, n)] })))) := by
  refine ⟨?_, ?_, ?_, ?_⟩
  · intro o v p q a hg
    exact ⟨fun hd => step_role_nil hg hd v, step_geometry_nil hg v,
      step_show_menubar_nil hg, step_hide_menubar_nil hg,
      step_maximize_nil hg, step_fullscreen_nil hg, step_profile_nil hg p,
      step_title_nil hg v, step_wd_nil hg v, step_command_nil hg a,
      step_zoom_nil hg q⟩
  · intro o v n hg
    refine ⟨?_, ?_, ?_⟩
    · intro haw
      simp only [digester_step, option_wait_cb, haw]
      rw [if_neg (by simp [haw]), ensure_top_tab_of_nil (show
        ({ o with any_wait := true } : TerminalOptions).initial_windows = [] from hg)]
      simp only [Except.map]
      rw [show (set_top_tab (add_new_window { o with any_wait := true } none true)
            { initial_tab_new none with wait := true }).initial_windows.length =
          (add_new_window ({ o with any_wait := true } : TerminalOptions)
            none true).initial_windows.length from length_modify_top_window _ _,
        length_add_new_window]
      rw [show ({ o with any_wait := true } : TerminalOptions).initial_windows =
        o.initial_windows from rfl, hg]
      rfl
    · simp only [digester_step, option_active_callback, ensure_top_tab_of_nil hg]
      simp only [Except.map]
      rw [show (set_top_tab (add_new_window o none true)
            { initial_tab_new none with active := true }).initial_windows.length =
          (add_new_window o none true).initial_windows.length from
            length_modify_top_window _ _,
        length_add_new_window, hg]
      rfl
    · intro hp hstd
      simp only [digester_step, option_pass_fd_cb, hp, ensure_top_tab_of_nil hg]
      rw [if_neg hstd, if_neg (by simp [initial_tab_new])]
      simp only [Except.map]
      rw [show (set_top_tab (add_new_window o none true)
            { initial_tab_new none with
                fd_array := (initial_tab_new none).fd_array ++
                  [((initial_tab_new none).fd_array.length, n)] }).initial_windows.length =
          (add_new_window o none true).initial_windows.length from
            length_modify_top_window _ _,
        length_add_new_window, hg]
      rfl
  · intro o iw v htw
    refine ⟨?_, ?_, ?_, ?_, ?_, ?_⟩
    · rw [step_role_top htw v]
      simp only [Except.map]
      rw [dropLast_modify_top_window, length_modify_top_window,
        top_window?_modify_top_window, htw]
      rfl
    · rw [step_geometry_top htw v]
      simp only [Except.map]
      rw [dropLast_modify_top_window, length_modify_top_window,
        top_window?_modify_top_window, htw]
      rfl
    · rw [step_maximize_top htw]
      simp only [Except.map]
      rw [dropLast_modify_top_window, length_modify_top_window,
        top_window?_modify_top_window, htw]
      rfl
    · rw [step_fullscreen_top htw]
      simp only [Except.map]
      rw [dropLast_modify_top_window, length_modify_top_window,
        top_window?_modify_top_window, htw]
      rfl
    · intro hf
      rw [step_show_menubar_top_set htw (by simp [hf])]
      simp only [Except.map]
      rw [dropLast_modify_top_window, length_modify_top_window,
        top_window?_modify_top_window, htw]
      rfl
    · intro hf
      rw [step_hide_menubar_top_set htw (by simp [hf])]
      simp only [Except.map]
      rw [dropLast_modify_top_window, length_modify_top_window,
        top_window?_modify_top_window, htw]
      rfl
  · intro o it v p q a n s htt
    refine ⟨?_, ?_, ?_, ?_, ?_, ?_, ?_, ?_⟩
    · rw [step_title_top htt v]
      simp only [Except.map]
      rw [triple_set_top_tab htt]
    · rw [step_wd_top htt v]
      simp only [Except.map]
      rw [triple_set_top_tab htt]
    · rw [step_profile_top htt p]
      simp only [Except.map]
      rw [triple_set_top_tab htt]
    · rw [step_command_top htt a]
      simp only [Except.map]
      rw [triple_set_top_tab htt]
    · rw [step_zoom_top htt q]
      simp only [Except.map]
      rw [triple_set_top_tab htt]
    · rw [step_active_top htt]
      simp only [Except.map]
      rw [triple_set_top_tab htt]
    · intro haw
      rw [step_wait_top htt haw]
      simp only [Except.map]
      have htt2 : top_tab? ({ o with any_wait := true } : TerminalOptions) =
          some it := htt
      rw [triple_set_top_tab htt2]
    · intro hp hstd hdup
      rw [step_fd_top htt hp hstd hdup]
      simp only [Except.map]
      rw [triple_set_top_tab htt]

def c2iw : InitialWindow :=
  { initial_window_new 0 with
      implicit_first_window := true, tabs := [initial_tab_new none] }

def c2w : TerminalOptions :=
  { initial_options "/" with initial_windows := [c2iw] }

/-- Witness for C2: a title flag with no window records a default and
creates no window; an active flag with no window creates one window; a
geometry flag and a title flag with a window open target the current window
and tab. -/
theorem C2_flag_targeting_witness :
    digester_step (initial_options "/") (.title "T") =
      .ok ({ initial_options "/" with default_title := some "T" }, []) ∧
    (digester_step (initial_options "/") .active).map
        (fun r => r.1.initial_windows.length) = .ok 1 ∧
    (digester_step c2w (.geometry "80x24")).map
        (fun r => (r.1.initial_windows.dropLast, r.1.initial_windows.length,
          top_window? r.1)) =
      .ok (c2w.initial_windows.dropLast, c2w.initial_windows.length,
        some { c2iw with geometry := some "80x24" }) ∧
    (digester_step c2w (.title "T")).map
        (fun r => (r.1.initial_windows.dropLast, r.1.initial_windows.length,
          top_tab? r.1)) =
      .ok (c2w.initial_windows.dropLast, c2w.initial_windows.length,
        some { initial_tab_new none with title := some "T" }) := by
  have h1 := C2_flag_targeting.1 (initial_options "/") "T" "p" 1 [] rfl
  have h2 := C2_flag_targeting.2.1 (initial_options "/") "5" 5 rfl
  have h3 := C2_flag_targeting.2.2.1 c2w c2iw "80x24" rfl
  have h4 := C2_flag_targeting.2.2.2 c2w (initial_tab_new none) "T" "p" 1 [] 5 "5" rfl
  obtain ⟨-, -, -, -, -, -, -, ht, -, -, -⟩ := h1
  exact ⟨ht, h2.2.1, h3.2.1, h4.1⟩

/-- Counterexample to C1: with the execute flag unset, a buffered trailing
command (as captured after a bare separator) is neither attached to any tab
nor cleared by the finalizer; and with the execute flag set and two windows
open, the command is attached to the last tab of the last window, not to
the first tab of the first window. -/
theorem C1_counterexample :
    digest_options_callback
        { initial_options "/" with exec_argv := some ["foo"] } =
      .ok { initial_options "/" with exec_argv := some ["foo"] } ∧
    (digest_options_callback
        { initial_options "/" with
            execute := true, exec_argv := some ["foo"],
            initial_windows :=
              [{ initial_window_new 0 with tabs := [initial_tab_new none] },
               { initial_window_new 0 with tabs := [initial_tab_new none] }] }).map
      (fun r => r.initial_windows.map (fun iw => iw.tabs.map (fun it => it.exec_argv))) =
    .ok [[none], [some ["foo"]]] := by
  exact ⟨rfl, rfl⟩

/-- C1 as amended: after all events are consumed, the finalizer raises the
must-specify-a-command fatal error when the legacy execute flag was seen but
no trailing command was captured; when the execute flag was seen and a
trailing command exists, it is attached to the current tab, that is the last
tab of the last window (creating an implicit first window and tab when none
exists), and the buffer is cleared; when the execute flag was not seen the
finalizer changes nothing, leaving any buffered command in place. -/
theorem C1_digest_spec :
    ∀ (o : TerminalOptions),
      (o.execute = true → o.exec_argv = none →
          digest_options_callback o = .error .missing_command) ∧
      (o.execute = false → digest_options_callback o = .ok o) ∧
      (∀ (a : List String) (it : InitialTab), o.execute = true →
          o.exec_argv = some a → top_tab? o = some it →
          digest_options_callback o =
            .ok { set_top_tab o { it with exec_argv := some a } with
                    exec_argv := none }) ∧
      (∀ a : List String, o.execute = true → o.exec_argv = some a →
          o.initial_windows = [] →
          (digest_options_callback o).map
              (fun r => (r.initial_windows.length,
                (top_tab? r).map (fun it => it.exec_argv), r.exec_argv)) =
            .ok (1, some (some a), none)) := by
  intro o
  refine ⟨?_, ?_, ?_, ?_⟩
  · intro hx ha
    simp [digest_options_callback, hx, ha]
  · intro hx
    simp [digest_options_callback, hx]
  · intro a it hx ha htt
    simp only [digest_options_callback, hx, if_true, ha,
      ensure_top_tab_of_top_tab? htt]
  · intro a hx ha hg
    simp only [digest_options_callback, hx, if_true, ha,
      ensure_top_tab_of_nil hg]
    simp only [Except.map]
    rw [show (set_top_tab (add_new_window o none true)
          { initial_tab_new none with
              exec_argv := (add_new_window o none true).exec_argv } :
        TerminalOptions).initial_windows.length =
        (add_new_window o none true).initial_windows.length from
          length_modify_top_window _ _,
      length_add_new_window, hg]
    have htt2 : top_tab? (add_new_window o none true) =
        some (initial_tab_new none) := top_tab?_add_new_window o none true
    rw [show top_tab? ({ set_top_tab (add_new_window o none true)
          { initial_tab_new none with
              exec_argv := (add_new_window o none true).exec_argv } with
          exec_argv := none } : TerminalOptions) =
        top_tab? (set_top_tab (add_new_window o none true)
          { initial_tab_new none with
              exec_argv := (add_new_window o none true).exec_argv }) from rfl,
      top_tab?_set_top_tab htt2, add_new_window_exec_argv, ha]
    rfl

def c1state : TerminalOptions :=
  { initial_options "/" with
      execute := true, exec_argv := some ["foo", "bar"],
      initial_windows := [{ initial_window_new 0 with
        tabs := [initial_tab_new none] }] }

/-- Witness for C1 at concrete states. -/
theorem C1_digest_spec_witness :
    digest_options_callback ({ initial_options "/" with execute := true }) =
      .error .missing_command ∧
    digest_options_callback (initial_options "/") = .ok (initial_options "/") ∧
    digest_options_callback c1state =
      .ok { set_top_tab c1state
              { initial_tab_new none with exec_argv := some ["foo", "bar"] } with
              exec_argv := none } ∧
    (digest_options_callback
        ({ initial_options "/" with
             execute := true,
             exec_argv := some ["foo", "bar"] })).map
        (fun r => (r.initial_windows.length,
          (top_tab? r).map (fun it => it.exec_argv), r.exec_argv)) =
      .ok (1, some (some ["foo", "bar"]), none) := by
  refine ⟨?_, ?_, ?_, ?_⟩
  · exact (C1_digest_spec _).1 rfl rfl
  · exact (C1_digest_spec _).2.1 rfl
  · exact (C1_digest_spec c1state).2.2.1 ["foo", "bar"] (initial_tab_new none)
      rfl rfl rfl
  · exact (C1_digest_spec _).2.2.2 ["foo", "bar"] rfl rfl rfl

def kf7 : KeyFile :=
  { has_config_group := true, version := 1, compat_version := 1,
    window_groups := some
      [{ tab_groups := some [], active_tab := none, role := none,
         geometry := none, fullscreen := false, maximized := false,
         menubar_visible := none }] }

/-- C7 exhibits the violation: merging a well-versioned document whose only
window group carries a tabs key holding the empty list succeeds and appends
a window specification with zero tabs, and a subsequent tab-scoped flag then
dies on the g_assert_nonnull assertion in ensure_top_tab. -/
theorem C7_empty_tabs_window :
    (terminal_options_merge_config (initial_options "/") kf7 1).2 = none ∧
    (terminal_options_merge_config (initial_options "/") kf7 1).1.initial_windows.map
        (fun iw => iw.tabs.length) = [0] ∧
    digester_step (terminal_options_merge_config (initial_options "/") kf7 1).1
        (.title "t") = .error .assertion_failed := by
  refine ⟨by decide, by decide, by rfl⟩

/-- C9: a decode or shell-split failure on any tab command key inside the
document makes the whole merge call fail, and every failing call leaves the
pre-existing output window list unchanged, discarding every window built
during the call; a successful merge appends the windows built from the
document, in document order, after the windows already in the output. -/
theorem C9_merge_spec :
    ∀ (o : TerminalOptions) (kf : KeyFile) (tag : Nat),
      ((terminal_options_merge_config o kf tag).2 ≠ none →
          (terminal_options_merge_config o kf tag).1.initial_windows =
            o.initial_windows) ∧
      (∀ groups, kf.window_groups = some groups →
          has_bad_command groups = true →
          (terminal_options_merge_config o kf tag).2 ≠ none) ∧
      (∀ groups, kf.window_groups = some groups →
          (terminal_options_merge_config o kf tag).2 = none →
          (terminal_options_merge_config o kf tag).1.initial_windows =
            o.initial_windows ++ (merge_windows o tag groups).2.1) := by
  intro o kf tag
  refine ⟨?_, ?_, ?_⟩
  · intro h
    exact merge_config_err_windows o kf tag h
  · intro groups hg hbad
    exact merge_config_bad hg hbad
  · intro groups hg hnone
    have hm : terminal_options_merge_config o kf tag =
        ((terminal_options_merge_config o kf tag).1, none) := by
      rw [← hnone]
    obtain ⟨groups2, hg2, _, ho2⟩ := merge_config_ok hm
    rw [hg] at hg2
    have hgg : groups = groups2 := Option.some.inj hg2
    subst hgg
    rw [ho2]
    rw [show ({ (merge_windows o tag groups).1 with
          initial_windows := (merge_windows o tag groups).1.initial_windows ++
            (merge_windows o tag groups).2.1 } : TerminalOptions).initial_windows =
        (merge_windows o tag groups).1.initial_windows ++
          (merge_windows o tag groups).2.1 from rfl,
      merge_windows_fst_windows]

def tg9a : TabGroup :=
  { name := "T0", profile := none, working_dir := none, title := none,
    command := none }

def tg9b : TabGroup :=
  { name := "T1", profile := none, working_dir := none, title := none,
    command := some none }

def tg9c : TabGroup :=
  { name := "T0", profile := some "P", working_dir := none,
    title := some "tt", command := some (some ["sh"]) }

def wg9of (tg : TabGroup) : WindowGroup :=
  { tab_groups := some [tg], active_tab := none, role := none,
    geometry := none, fullscreen := false, maximized := false,
    menubar_visible := none }

def kf9bad : KeyFile :=
  { has_config_group := true, version := 1, compat_version := 1,
    window_groups := some [wg9of tg9a, wg9of tg9b] }

def kf9ok : KeyFile :=
  { has_config_group := true, version := 1, compat_version := 1,
    window_groups := some [wg9of tg9c] }

/-- Witness for C9: a document with a bad command in its second window group
fails and leaves the window list unchanged, discarding the first, cleanly
built window too; a good document appends its windows. -/
theorem C9_merge_spec_witness :
    (terminal_options_merge_config c2w kf9bad 1).1.initial_windows =
      c2w.initial_windows ∧
    (terminal_options_merge_config c2w kf9bad 1).2 ≠ none ∧
    (terminal_options_merge_config c2w kf9ok 1).1.initial_windows =
      c2w.initial_windows ++ (merge_windows c2w 1 ((kf9ok.window_groups).getD [])).2.1 := by
  have hbad := (C9_merge_spec c2w kf9bad 1).2.1 [wg9of tg9a, wg9of tg9b]
    rfl (by decide)
  refine ⟨?_, hbad, ?_⟩
  · exact (C9_merge_spec c2w kf9bad 1).1 hbad
  · exact (C9_merge_spec c2w kf9ok 1).2.2 ((kf9ok.window_groups).getD [])
      rfl (by decide)

def c10o : TerminalOptions :=
  { initial_options "/" with
      default_window_menubar_forced := true,
      default_geometry := some "80x24" }

/-- Witness for C10 at a concrete defaults record with a forced menubar and
a default geometry. -/
theorem C10_apply_defaults_spec_witness :
    (apply_defaults c10o (initial_window_new 0)).1.default_window_menubar_forced
        = false ∧
    (apply_defaults c10o (initial_window_new 0)).2.force_menubar_state = true ∧
    (apply_defaults c10o (initial_window_new 0)).2.geometry = some "80x24" ∧
    ((add_new_window (add_new_window c10o none true) none true).initial_windows.map
        (fun w => (w.force_menubar_state, w.geometry)))
      = [(true, some "80x24"), (false, some "80x24")] := by
  obtain ⟨h1, h2, h3, h4, h5, h6⟩ :=
    C10_apply_defaults_spec c10o (initial_window_new 0)
  refine ⟨(h1 rfl).1, (h1 rfl).2.1, ?_, ?_⟩
  · rw [h4 rfl]
    rfl
  · rw [h6 rfl]
    rfl

end TermOpt
